import Mathlib

/-!
Shallow embedding of the checkpoint/restart subsystem of
`src/fem/datacollection.cpp` (classes `DataCollection` and
`VisItDataCollection`), together with proofs of the specification claims
about it.

Modelling conventions:

* C++ `int` is modelled as `Int` (no overflow is exercised); `double`
  simulation time and picojson numbers are modelled as `ℚ`.
* `std::map<std::string, _>` is modelled as an association list kept
  sorted by `std::less<std::string>` (byte-wise lexicographic) order via
  `Smap.insert` / `Smap.find?`, so list order matches `std::map`
  iteration order.
* Heap objects (`Mesh*`, `GridFunction*`) are modelled by numeric ids
  handed out by an explicit allocator `Heap`; `delete` removes an id from
  the live set, and `delete` of a null handle is a no-op.
* The filesystem is an oracle: `SaveEnv` says which directory creations
  and stream writes succeed, `LoadEnv` maps a file name to its content.
  Every per-file operation is also recorded in an event trace
  (`FileEv`), so "this Save/Load attempted to touch file f" is
  observable.  The `create_directory` MPI broadcast is folded into the
  `mkdirOK` oracle (all ranks observe the coordinating rank's result),
  and its "already exists is not an error" rule is part of the oracle.
* The picojson library is not part of this repository, so the manifest
  is modelled at the parsed-tree level (`JsonV`): the root-string
  builder produces the tree that it would serialize, and the parser
  consumes the tree that a successful `picojson::parse` would return;
  an unparseable root file is modelled by `FContent.rootC none`.
  picojson accessors assert on a type mismatch (`value::get<T>()`);
  those assertion paths are modelled by returning a default value and
  are never exercised by the theorems below.
-/

namespace Mfem

/-! ### String helpers (`to_string`, `to_padded_string`, `to_int`, lines 35-58) -/

/-- Decimal digit character for a value `0..9`. -/
def digitChar (d : Nat) : Char :=
  match d with
  | 0 => '0' | 1 => '1' | 2 => '2' | 3 => '3' | 4 => '4'
  | 5 => '5' | 6 => '6' | 7 => '7' | 8 => '8' | _ => '9'

/-- Fueled base-10 digit list (least significant first).  The fuel makes the
    recursion structural so that concrete values reduce definitionally. -/
def natDigitsF : Nat → Nat → List Nat
  | _, 0 => []
  | 0, _ + 1 => []
  | f + 1, n + 1 => (n + 1) % 10 :: natDigitsF f ((n + 1) / 10)

/-- Base-10 digits of a natural number, least significant first. -/
def natDigits (n : Nat) : List Nat := natDigitsF n n

/-- Decimal character representation of a natural number, most significant
    digit first (what `ostringstream << n` prints for `n ≥ 0`). -/
def natRepr (n : Nat) : List Char :=
  if n = 0 then ['0'] else ((natDigits n).map digitChar).reverse

/-- `to_string(int)` from the source (lines 35-44): print via `stringstream`
    (the `find_first_not_of(" \t")` trim is a no-op on numeric output). -/
def to_string (i : Int) : String :=
  if i < 0 then String.mk ('-' :: natRepr i.natAbs) else String.mk (natRepr i.natAbs)

/-- `to_padded_string(i, digits)` from the source (lines 46-51):
    `oss << setw(digits) << setfill('0') << i`.  The representation is
    right-adjusted and filled with `'0'` up to `digits` characters; a longer
    representation is not truncated.  Only used with nonnegative arguments. -/
def to_padded_string (i : Int) (digits : Nat) : String :=
  let s := (to_string i).data
  String.mk (List.replicate (digits - s.length) '0' ++ s)

/-- Numeric value of a most-significant-first digit list, accumulated the way
    `stringstream >> i` accumulates digits. -/
def valMSF (l : List Nat) : Nat := l.foldl (fun a d => 10 * a + d) 0

/-- Value of a decimal digit character. -/
def charDigit (c : Char) : Nat := c.toNat - 48

/-- Whether a character is a decimal digit. -/
def isDigitChar (c : Char) : Bool := decide (48 ≤ c.toNat) && decide (c.toNat ≤ 57)

/-- `to_int(string)` from the source (lines 53-58): `stringstream(str) >> i`
    skips leading whitespace, reads an optional sign and then a maximal run
    of decimal digits.  On a completely failed extraction the C++ leaves `i`
    unspecified (pre-C++11); that unreachable case is modelled as `0`. -/
def to_int (str : String) : Int :=
  match str.data.dropWhile (fun c => c == ' ' || c == '\t' || c == '\n') with
  | [] => 0
  | c :: t =>
    if c == '-' then - (valMSF ((t.takeWhile isDigitChar).map charDigit) : Int)
    else if c == '+' then (valMSF ((t.takeWhile isDigitChar).map charDigit) : Int)
    else (valMSF (((c :: t).takeWhile isDigitChar).map charDigit) : Int)

/-- The fixed-width base-10 digit expansion of `n`, most significant first:
    position `k` holds `n / 10^(d-1-k) % 10`.  Proof-support definition used
    to analyse `to_padded_string`. -/
def fixedDigits (d n : Nat) : List Nat :=
  (List.range d).map (fun k => n / 10 ^ (d - 1 - k) % 10)

/-! ### Sorted association lists (model of `std::map<std::string, T>`) -/

/-- Byte-wise lexicographic comparison of character lists: the strict weak
    order `std::less<std::string>` uses. -/
def charListLt : List Char → List Char → Bool
  | [], [] => false
  | [], _ :: _ => true
  | _ :: _, [] => false
  | a :: as, b :: bs =>
    if a.toNat < b.toNat then true
    else if b.toNat < a.toNat then false
    else charListLt as bs

/-- `std::less<std::string>`. -/
def strLt (a b : String) : Bool := charListLt a.data b.data

/-- `std::map` lookup. -/
def Smap.find? {α : Type} (k : String) : List (String × α) → Option α
  | [] => none
  | (k', v) :: t => if k == k' then some v else Smap.find? k t

/-- `std::map` insert-or-assign (`m[k] = v`), keeping the list sorted by key. -/
def Smap.insert {α : Type} (k : String) (v : α) : List (String × α) → List (String × α)
  | [] => [(k, v)]
  | (k', v') :: t =>
    if strLt k k' then (k, v) :: (k', v') :: t
    else if k == k' then (k, v) :: t
    else (k', v') :: Smap.insert k v t

/-! ### picojson values, at the parsed-tree level -/

/-- A picojson value.  Objects are `std::map`s, kept sorted by key. -/
inductive JsonV : Type where
  | null : JsonV
  | num : ℚ → JsonV
  | str : String → JsonV
  | obj : List (String × JsonV) → JsonV

/-- `picojson::value::get(key)`: member lookup, null when the key is absent.
    The source asserts `is<object>()` first; the non-object case returns
    null here and is never exercised. -/
def jget (j : JsonV) (k : String) : JsonV :=
  match j with
  | JsonV.obj kvs => (Smap.find? k kvs).getD JsonV.null
  | _ => JsonV.null

/-- `get<double>()`; the source asserts `is<double>()`, the mismatch default
    is never exercised. -/
def jnum : JsonV → ℚ
  | JsonV.num q => q
  | _ => 0

/-- `get<std::string>()`; the source asserts `is<string>()`. -/
def jstr : JsonV → String
  | JsonV.str s => s
  | _ => ""

/-- `get<picojson::object>()`; the source checks `is<object>()` first. -/
def jobjOf : JsonV → List (String × JsonV)
  | JsonV.obj l => l
  | _ => []

/-- `is<picojson::object>()`. -/
def isObj : JsonV → Bool
  | JsonV.obj _ => true
  | _ => false

/-- `int(x)` for a double `x`: truncation toward zero.  For `q = num/den`
    with `den > 0` this is exactly T-division of the numerator. -/
def ratToInt (q : ℚ) : Int := Int.tdiv q.num (q.den : Int)

/-! ### Collection state -/

/-- `DataCollection::{NO_ERROR, READ_ERROR, WRITE_ERROR}`. -/
inductive ErrTy : Type where
  | NO_ERROR : ErrTy
  | READ_ERROR : ErrTy
  | WRITE_ERROR : ErrTy
deriving DecidableEq

/-- `VisItFieldInfo`: association tag and component count of one field. -/
structure VisItFieldInfo : Type where
  association : String
  num_components : Int
deriving DecidableEq

/-- The data members of `DataCollection`.  `mesh` and the `field_map` values
    are heap ids (`none` = `NULL`). -/
structure DCState : Type where
  name : String
  prefix_path : String
  mesh : Option Nat
  field_map : List (String × Option Nat)
  myid : Nat
  num_procs : Int
  serial : Bool
  own_data : Bool
  cycle : Int
  time : ℚ
  precision : Nat
  pad_digits : Nat
  error : ErrTy

/-- The extra data members of `VisItDataCollection`. -/
structure VisItState extends DCState where
  spatial_dim : Int
  topo_dim : Int
  visit_max_levels_of_detail : Int
  field_info_map : List (String × VisItFieldInfo)

/-- A heap allocator: next fresh id and the list of live (not yet deleted)
    object ids. -/
structure Heap : Type where
  next : Nat
  live : List Nat

/-- `new`: hand out a fresh id. -/
def Heap.alloc (h : Heap) : Nat × Heap := (h.next, ⟨h.next + 1, h.next :: h.live⟩)

/-- `delete`: remove an id from the live set; deleting `NULL` is a no-op. -/
def Heap.free (h : Heap) : Option Nat → Heap
  | none => h
  | some i => ⟨h.next, h.live.erase i⟩

/-- A mesh object as seen by this subsystem: its heap id, its dimensions,
    and — when it is a `ParMesh` — this process's rank and the rank count. -/
structure MeshObj : Type where
  id : Nat
  sdim : Int
  tdim : Int
  par : Option (Nat × Int)

/-- A grid-function object: its heap id and `VectorDim()`. -/
structure GFObj : Type where
  id : Nat
  vdim : Int

/-- Modelled from the spec: the default padding width (the spec's examples
    pad to six digits, `mesh.000000`).  The constant itself is declared in
    the header `datacollection.hpp`, which is not part of the source sample. -/
def pad_digits_default : Nat := 6

/-- Modelled from the spec: default numeric text precision, declared in the
    header `datacollection.hpp` (its value is irrelevant to every claim). -/
def precision_default : Nat := 6

/-! ### DataCollection operations (lines 62-325) -/

/-- `DataCollection::DataCollection(name)` (lines 62-76). -/
def DataCollection.mk0 (collection_name : String) : DCState :=
  { name := collection_name, prefix_path := "", mesh := none, field_map := []
    myid := 0, num_procs := 1, serial := true, own_data := false
    cycle := -1, time := 0, precision := precision_default
    pad_digits := pad_digits_default, error := ErrTy.NO_ERROR }

/-- `DataCollection::DataCollection(name, mesh)` (lines 78-101): rank data
    comes from the mesh when it is a `ParMesh`. -/
def DataCollection.mkWithMesh (collection_name : String) (m : MeshObj) : DCState :=
  match m.par with
  | none => { DataCollection.mk0 collection_name with mesh := some m.id }
  | some (r, np) =>
    { DataCollection.mk0 collection_name with
      mesh := some m.id, myid := r, num_procs := np, serial := false }

/-- `DataCollection::SetMesh` (lines 103-119). -/
def DataCollection.SetMesh (s : DCState) (h : Heap) (m : MeshObj) : DCState × Heap :=
  let h1 := if s.own_data then h.free s.mesh else h
  match m.par with
  | none => ({ s with mesh := some m.id, myid := 0, num_procs := 1, serial := true }, h1)
  | some (r, np) => ({ s with mesh := some m.id, myid := r, num_procs := np, serial := false }, h1)

/-- `DataCollection::RegisterField` (lines 121-128): when the collection owns
    its data and the name is already registered, the old value is deleted. -/
def DataCollection.RegisterField (s : DCState) (h : Heap) (k : String) (gf : GFObj) :
    DCState × Heap :=
  let h1 :=
    match Smap.find? k s.field_map with
    | some old => if s.own_data then h.free old else h
    | none => h
  ({ s with field_map := Smap.insert k (some gf.id) s.field_map }, h1)

/-- `DataCollection::DeleteData` (lines 289-306): delete the mesh and the
    field values only when owned; null the handles, keep the names; clear
    `own_data`. -/
def DataCollection.DeleteData (s : DCState) (h : Heap) : DCState × Heap :=
  let h1 := if s.own_data then h.free s.mesh else h
  let h2 := if s.own_data then s.field_map.foldl (fun hh kv => hh.free kv.2) h1 else h1
  ({ s with mesh := none, field_map := s.field_map.map (fun kv => (kv.1, none))
            own_data := false }, h2)

/-- `DataCollection::DeleteAll` (lines 308-312). -/
def DataCollection.DeleteAll (s : DCState) (h : Heap) : DCState × Heap :=
  let p := DataCollection.DeleteData s h
  ({ p.1 with field_map := [] }, p.2)

/-- `DataCollection::~DataCollection` (lines 314-325): release the mesh and
    all field values when owned. -/
def DataCollection.dtor (s : DCState) (h : Heap) : Heap :=
  if s.own_data then s.field_map.foldl (fun hh kv => hh.free kv.2) (h.free s.mesh) else h

/-! ### Save-side filesystem oracle and naming -/

/-- Which directory creations and stream writes succeed during a Save. -/
structure SaveEnv : Type where
  mkdirOK : String → Bool
  writeOK : String → Bool

/-- One per-file operation, as recorded in a trace: mesh/field/root writes
    during Save, root/mesh/field opens during Load. -/
inductive FileEv : Type where
  | meshW : String → FileEv
  | fieldW : String → FileEv
  | rootW : String → FileEv
  | rootR : String → FileEv
  | meshR : String → FileEv
  | fieldR : String → FileEv
deriving DecidableEq

/-- The working directory (computed identically in `SaveMesh` lines 211-219
    and `SaveOneField` lines 250-258). -/
def dir_name (s : DCState) : String :=
  s.prefix_path ++
    (if s.cycle = -1 then s.name
     else s.name ++ "_" ++ to_padded_string s.cycle s.pad_digits)

/-- The mesh file written by `SaveMesh` (lines 228-236). -/
def DataCollection.mesh_save_path (s : DCState) : String :=
  if s.serial then dir_name s ++ "/mesh"
  else dir_name s ++ "/mesh." ++ to_padded_string (s.myid : Int) s.pad_digits

/-- The file written for field `k` by `SaveOneField` (lines 260-269). -/
def DataCollection.field_save_path (s : DCState) (k : String) : String :=
  if s.serial then dir_name s ++ "/" ++ k
  else dir_name s ++ "/" ++ k ++ "." ++ to_padded_string (s.myid : Int) s.pad_digits

/-- `DataCollection::SaveMesh` (lines 197-245): create the prefix directory
    (when any) and the working directory, fail-fast on either; then write
    the mesh file, setting `WRITE_ERROR` on a stream failure. -/
def DataCollection.SaveMesh (s : DCState) (env : SaveEnv) : DCState × List FileEv :=
  if s.prefix_path ≠ "" ∧ env.mkdirOK s.prefix_path = false then
    ({ s with error := ErrTy.WRITE_ERROR }, [])
  else if env.mkdirOK (dir_name s) = false then
    ({ s with error := ErrTy.WRITE_ERROR }, [])
  else if env.writeOK (DataCollection.mesh_save_path s) = false then
    ({ s with error := ErrTy.WRITE_ERROR }, [FileEv.meshW (DataCollection.mesh_save_path s)])
  else (s, [FileEv.meshW (DataCollection.mesh_save_path s)])

/-- `DataCollection::SaveOneField` (lines 247-278): write one field's file,
    setting `WRITE_ERROR` on a stream failure. -/
def DataCollection.SaveOneField (s : DCState) (env : SaveEnv) (k : String) :
    DCState × FileEv :=
  if env.writeOK (DataCollection.field_save_path s k) = false then
    ({ s with error := ErrTy.WRITE_ERROR }, FileEv.fieldW (DataCollection.field_save_path s k))
  else (s, FileEv.fieldW (DataCollection.field_save_path s k))

/-- `DataCollection::Save` (lines 158-169): save the mesh; `if (error)
    return;`; then save every registered field in map order. -/
def DataCollection.Save (s : DCState) (env : SaveEnv) : DCState × List FileEv :=
  let p := DataCollection.SaveMesh s env
  if p.1.error ≠ ErrTy.NO_ERROR then p
  else
    p.1.field_map.foldl
      (fun acc kv =>
        let r := DataCollection.SaveOneField acc.1 env kv.1
        (r.1, acc.2 ++ [r.2]))
      p

/-! ### VisItDataCollection operations (lines 330-579) -/

/-- `VisItDataCollection::VisItDataCollection(name)` (lines 330-339). -/
def VisItDataCollection.mk0 (collection_name : String) : VisItState :=
  { toDCState := { DataCollection.mk0 collection_name with serial := false, cycle := 0 }
    spatial_dim := 0, topo_dim := 0, visit_max_levels_of_detail := 32
    field_info_map := [] }

/-- `VisItDataCollection::VisItDataCollection(name, mesh)` (lines 341-351). -/
def VisItDataCollection.mkWithMesh (collection_name : String) (m : MeshObj) : VisItState :=
  { toDCState := { DataCollection.mkWithMesh collection_name m with serial := false, cycle := 0 }
    spatial_dim := m.sdim, topo_dim := m.tdim, visit_max_levels_of_detail := 32
    field_info_map := [] }

/-- `VisItDataCollection::SetMesh` (lines 353-360). -/
def VisItDataCollection.SetMesh (s : VisItState) (h : Heap) (m : MeshObj) :
    VisItState × Heap :=
  let p := DataCollection.SetMesh s.toDCState h m
  ({ s with toDCState := { p.1 with serial := false }
            spatial_dim := m.sdim, topo_dim := m.tdim }, p.2)

/-- `VisItDataCollection::RegisterField` (lines 362-366). -/
def VisItDataCollection.RegisterField (s : VisItState) (h : Heap) (k : String) (gf : GFObj) :
    VisItState × Heap :=
  let p := DataCollection.RegisterField s.toDCState h k gf
  ({ s with toDCState := p.1
            field_info_map := Smap.insert k ⟨"nodes", gf.vdim⟩ s.field_info_map }, p.2)

/-- `VisItDataCollection::SetMaxLevelsOfDetail` (lines 368-371). -/
def VisItDataCollection.SetMaxLevelsOfDetail (s : VisItState) (m : Int) : VisItState :=
  { s with visit_max_levels_of_detail := m }

/-- `VisItDataCollection::DeleteAll` (lines 373-377). -/
def VisItDataCollection.DeleteAll (s : VisItState) (h : Heap) : VisItState × Heap :=
  let p := DataCollection.DeleteAll s.toDCState h
  ({ s with toDCState := p.1, field_info_map := [] }, p.2)

/-- The root/manifest file name, `prefix + name + "_" + pad(cycle) +
    ".mfem_root"` (identical expressions in `SaveRootFile` lines 389-390 and
    `Load` lines 405-406). -/
def rootFileName (s : DCState) : String :=
  s.prefix_path ++ s.name ++ "_" ++ to_padded_string s.cycle s.pad_digits ++ ".mfem_root"

/-- The per-rank mesh file opened by `LoadMesh` (lines 444-446).  Unlike the
    Save-side naming there is no `serial` or `cycle == -1` branch here. -/
def meshLoadPath (s : DCState) : String :=
  s.prefix_path ++ s.name ++ "_" ++ to_padded_string s.cycle s.pad_digits ++
    "/mesh." ++ to_padded_string (s.myid : Int) s.pad_digits

/-- `path_left` of `LoadFields` (lines 463-464). -/
def fieldLoadLeft (s : DCState) : String :=
  s.prefix_path ++ s.name ++ "_" ++ to_padded_string s.cycle s.pad_digits ++ "/"

/-- `path_right` of `LoadFields` (line 465). -/
def fieldLoadRight (s : DCState) : String :=
  "." ++ to_padded_string (s.myid : Int) s.pad_digits

/-! ### Manifest building (`GetVisItRootString`, lines 485-525) -/

/-- The relative path prefix `name + "_" + pad(cycle) + "/"` (line 488). -/
def visitPathStr (s : VisItState) : String :=
  s.name ++ "_" ++ to_padded_string s.cycle s.pad_digits ++ "/"

/-- The `".%0Nd"` per-rank placeholder suffix (line 494). -/
def visitExt (s : VisItState) : String :=
  ".%0" ++ to_string (s.pad_digits : Int) ++ "d"

/-- The `tags` object of the mesh entry (lines 495-497). -/
def visitMtags (s : VisItState) : List (String × JsonV) :=
  Smap.insert "max_lods" (JsonV.str (to_string s.visit_max_levels_of_detail))
    (Smap.insert "topo_dim" (JsonV.str (to_string s.topo_dim))
      (Smap.insert "spatial_dim" (JsonV.str (to_string s.spatial_dim)) []))

/-- The mesh entry (lines 498-499). -/
def visitMeshEntry (s : VisItState) : List (String × JsonV) :=
  Smap.insert "tags" (JsonV.obj (visitMtags s))
    (Smap.insert "path" (JsonV.str (visitPathStr s ++ "mesh" ++ visitExt s)) [])

/-- One field's manifest entry (lines 505-508).  The source reuses the same
    `field`/`ftags` objects across loop iterations, but overwrites every key
    each time, which is equivalent to building them afresh. -/
def visitFieldEntry (path_str ext : String) (k : String) (i : VisItFieldInfo) : JsonV :=
  JsonV.obj
    (Smap.insert "tags"
      (JsonV.obj
        (Smap.insert "comps" (JsonV.str (to_string i.num_components))
          (Smap.insert "assoc" (JsonV.str i.association) [])))
      (Smap.insert "path" (JsonV.str (path_str ++ k ++ ext)) []))

/-- The `fields` object: one entry per `field_info_map` entry, inserted in
    map order (lines 502-510). -/
def visitFieldsObj (path_str ext : String) (l : List (String × VisItFieldInfo)) :
    List (String × JsonV) :=
  l.foldl (fun acc kv => Smap.insert kv.1 (visitFieldEntry path_str ext kv.1 kv.2) acc) []

/-- The scalar and mesh entries of the `main` object (lines 512-515). -/
def visitMainBase (s : VisItState) : List (String × JsonV) :=
  Smap.insert "mesh" (JsonV.obj (visitMeshEntry s))
    (Smap.insert "domains" (JsonV.num (s.num_procs : ℚ))
      (Smap.insert "time" (JsonV.num s.time)
        (Smap.insert "cycle" (JsonV.num (s.cycle : ℚ)) [])))

/-- The `main` object (lines 512-519); `fields` is present only when at
    least one field is registered. -/
def visitMainList (s : VisItState) : List (String × JsonV) :=
  if s.field_info_map.isEmpty then visitMainBase s
  else
    Smap.insert "fields"
      (JsonV.obj (visitFieldsObj (visitPathStr s) (visitExt s) s.field_info_map))
      (visitMainBase s)

/-- `VisItDataCollection::GetVisItRootString` (lines 485-525), at the tree
    level: the JSON document that the method serializes. -/
def VisItDataCollection.GetVisItRootJson (s : VisItState) : JsonV :=
  JsonV.obj
    (Smap.insert "dsets"
      (JsonV.obj (Smap.insert "main" (JsonV.obj (visitMainList s)) [])) [])

/-- `VisItDataCollection::ParseVisItRootString` (lines 527-579), applied to
    an already-parsed tree (`picojson::parse` succeeded).  `cycle`, `time`
    and `num_procs` are assigned before the mesh-path underscore check; when
    the path has no `'_'`, `READ_ERROR` is set and `name`, the dimension
    tags and `field_info_map` are left untouched.  On the success path the
    field map is rebuilt from scratch (it is cleared even when `fields` is
    absent or not an object). -/
def VisItDataCollection.ParseVisItRootJson (s : VisItState) (top : JsonV) : VisItState :=
  match (jstr (jget (jget (jget (jget top "dsets") "main") "mesh") "path")).data.findIdx?
      (fun ch => ch == '_') with
  | none =>
    { s with
      cycle := ratToInt (jnum (jget (jget (jget top "dsets") "main") "cycle"))
      time := jnum (jget (jget (jget top "dsets") "main") "time")
      num_procs := ratToInt (jnum (jget (jget (jget top "dsets") "main") "domains"))
      error := ErrTy.READ_ERROR }
  | some idx =>
    { s with
      cycle := ratToInt (jnum (jget (jget (jget top "dsets") "main") "cycle"))
      time := jnum (jget (jget (jget top "dsets") "main") "time")
      num_procs := ratToInt (jnum (jget (jget (jget top "dsets") "main") "domains"))
      name := String.mk
        ((jstr (jget (jget (jget (jget top "dsets") "main") "mesh") "path")).data.take idx)
      spatial_dim := to_int (jstr (jget
        (jget (jget (jget (jget top "dsets") "main") "mesh") "tags") "spatial_dim"))
      topo_dim := to_int (jstr (jget
        (jget (jget (jget (jget top "dsets") "main") "mesh") "tags") "topo_dim"))
      visit_max_levels_of_detail := to_int (jstr (jget
        (jget (jget (jget (jget top "dsets") "main") "mesh") "tags") "max_lods"))
      field_info_map :=
        if isObj (jget (jget (jget top "dsets") "main") "fields") then
          (jobjOf (jget (jget (jget top "dsets") "main") "fields")).foldl
            (fun acc kv =>
              Smap.insert kv.1
                ⟨jstr (jget (jget kv.2 "tags") "assoc"),
                 to_int (jstr (jget (jget kv.2 "tags") "comps"))⟩ acc) []
        else [] }

/-! ### Load-side filesystem oracle and staged Load -/

/-- Content of a file as the Load path can interpret it: a root file (with
    its parse result; `none` = unparseable), a mesh file carrying the
    dimensions the reconstructed mesh reports, or a field file. -/
inductive FContent : Type where
  | rootC : Option JsonV → FContent
  | meshC : Int → Int → FContent
  | fieldC : FContent

/-- The on-disk state a Load runs against. -/
structure LoadEnv : Type where
  files : String → Option FContent

/-- `VisItDataCollection::LoadVisItRootFile` (lines 426-440): read the root
    file (a missing file leaves the buffer empty, which sets the stream's
    failbit), parse it, and on success process it. -/
def VisItDataCollection.LoadVisItRootFile (s : VisItState) (env : LoadEnv)
    (root_name : String) : VisItState × List FileEv :=
  match env.files root_name with
  | some (FContent.rootC (some j)) =>
    (VisItDataCollection.ParseVisItRootJson s j, [FileEv.rootR root_name])
  | some (FContent.rootC none) =>
    ({ s with error := ErrTy.READ_ERROR }, [FileEv.rootR root_name])
  | some _ =>
    -- a non-JSON file: `picojson::parse` fails
    ({ s with error := ErrTy.READ_ERROR }, [FileEv.rootR root_name])
  | none =>
    ({ s with error := ErrTy.READ_ERROR }, [FileEv.rootR root_name])

/-- `VisItDataCollection::LoadMesh` (lines 442-459): open the per-rank mesh
    file (failure sets `READ_ERROR` and returns), reconstruct the mesh from
    it, and cache its dimensions.  A present file that is not a mesh would
    abort inside the external mesh reader; it is modelled as a read
    failure (never exercised by the theorems). -/
def VisItDataCollection.LoadMesh (s : VisItState) (h : Heap) (env : LoadEnv) :
    VisItState × Heap × List FileEv :=
  match env.files (meshLoadPath s.toDCState) with
  | some (FContent.meshC sd td) =>
    let a := h.alloc
    ({ s with mesh := some a.1, spatial_dim := sd, topo_dim := td }, a.2,
      [FileEv.meshR (meshLoadPath s.toDCState)])
  | _ =>
    ({ s with error := ErrTy.READ_ERROR }, h, [FileEv.meshR (meshLoadPath s.toDCState)])

/-- The field-loading loop of `LoadFields` (lines 468-482): for each
    `field_info_map` entry in order, open its file (failure sets
    `READ_ERROR` and returns immediately) and construct the grid function. -/
def loadFieldsAux (pl pr : String) (env : LoadEnv) :
    List (String × VisItFieldInfo) → VisItState → Heap → VisItState × Heap × List FileEv
  | [], s, h => (s, h, [])
  | (k, _) :: rest, s, h =>
    match env.files (pl ++ k ++ pr) with
    | some FContent.fieldC =>
      let a := h.alloc
      let r := loadFieldsAux pl pr env rest
        { s with field_map := Smap.insert k (some a.1) s.field_map } a.2
      (r.1, r.2.1, FileEv.fieldR (pl ++ k ++ pr) :: r.2.2)
    | _ =>
      ({ s with error := ErrTy.READ_ERROR }, h, [FileEv.fieldR (pl ++ k ++ pr)])

/-- `VisItDataCollection::LoadFields` (lines 461-483): clear `field_map`,
    then load every field listed in `field_info_map`. -/
def VisItDataCollection.LoadFields (s : VisItState) (h : Heap) (env : LoadEnv) :
    VisItState × Heap × List FileEv :=
  loadFieldsAux (fieldLoadLeft s.toDCState) (fieldLoadRight s.toDCState) env
    s.field_info_map { s with field_map := [] } h

/-- The state after `Load`'s first two statements (lines 403-404):
    `DeleteAll(); cycle = _cycle;`. -/
def VisItDataCollection.loadStage1 (s : VisItState) (h : Heap) (c : Int) : VisItState :=
  { (VisItDataCollection.DeleteAll s h).1 with cycle := c }

/-- The state after `Load` has read and parsed the root file (line 407). -/
def VisItDataCollection.loadStage2 (s : VisItState) (h : Heap) (env : LoadEnv) (c : Int) :
    VisItState :=
  (VisItDataCollection.LoadVisItRootFile (VisItDataCollection.loadStage1 s h c) env
    (rootFileName (VisItDataCollection.loadStage1 s h c).toDCState)).1

/-- `VisItDataCollection::Load` (lines 401-424): DeleteAll, set the cycle,
    read+parse the root file, then (guarded by `if (!error)` at each step)
    load the mesh, load the fields, and either take ownership on success or
    call DeleteAll again on failure. -/
def VisItDataCollection.Load (s : VisItState) (h : Heap) (env : LoadEnv) (c : Int) :
    VisItState × Heap × List FileEv :=
  let h1 := (VisItDataCollection.DeleteAll s h).2
  let s2 := VisItDataCollection.loadStage1 s h c
  let p3 := VisItDataCollection.LoadVisItRootFile s2 env (rootFileName s2.toDCState)
  let m := if p3.1.error = ErrTy.NO_ERROR
    then VisItDataCollection.LoadMesh p3.1 h1 env else (p3.1, h1, [])
  let f := if m.1.error = ErrTy.NO_ERROR
    then VisItDataCollection.LoadFields m.1 m.2.1 env else (m.1, m.2.1, [])
  let tr := p3.2 ++ m.2.2 ++ f.2.2
  if f.1.error = ErrTy.NO_ERROR then ({ f.1 with own_data := true }, f.2.1, tr)
  else
    let q := VisItDataCollection.DeleteAll f.1 f.2.1
    (q.1, q.2, tr)

/-- `VisItDataCollection::SaveRootFile` (lines 385-399): only rank 0 writes
    the root file. -/
def VisItDataCollection.SaveRootFile (s : VisItState) (env : SaveEnv) :
    VisItState × List FileEv :=
  if s.myid = 0 then
    if env.writeOK (rootFileName s.toDCState) = false then
      ({ s with error := ErrTy.WRITE_ERROR }, [FileEv.rootW (rootFileName s.toDCState)])
    else (s, [FileEv.rootW (rootFileName s.toDCState)])
  else (s, [])

/-- `VisItDataCollection::Save` (lines 379-383). -/
def VisItDataCollection.Save (s : VisItState) (env : SaveEnv) : VisItState × List FileEv :=
  let p := DataCollection.Save s.toDCState env
  let q := VisItDataCollection.SaveRootFile { s with toDCState := p.1 } env
  (q.1, p.2 ++ q.2)

/-! ### Trace predicates and concrete inputs used by the claims -/

/-- No field write appears in a Save trace. -/
def noFieldWrite (tr : List FileEv) : Bool :=
  tr.all (fun e => match e with | FileEv.fieldW _ => false | _ => true)

/-- No field open appears in a Load trace. -/
def noFieldRead (tr : List FileEv) : Bool :=
  tr.all (fun e => match e with | FileEv.fieldR _ => false | _ => true)

/-- A Save environment in which every directory creation and write succeeds. -/
def allOk : SaveEnv := ⟨fun _ => true, fun _ => true⟩

/-- A well-formed manifest for collection `run`, cycle 3, one rank, one
    field `p` (used as a concrete Load input). -/
def sampleRoot : JsonV :=
  JsonV.obj [("dsets", JsonV.obj [("main", JsonV.obj
    [("cycle", JsonV.num 3),
     ("domains", JsonV.num 1),
     ("fields", JsonV.obj [("p", JsonV.obj
        [("path", JsonV.str "run_000003/p.%06d"),
         ("tags", JsonV.obj [("assoc", JsonV.str "nodes"), ("comps", JsonV.str "1")])])]),
     ("mesh", JsonV.obj
        [("path", JsonV.str "run_000003/mesh.%06d"),
         ("tags", JsonV.obj [("max_lods", JsonV.str "32"),
                             ("spatial_dim", JsonV.str "2"),
                             ("topo_dim", JsonV.str "2")])]),
     ("time", JsonV.num 0)])])]

/-- A disk state where the manifest and the rank-0 mesh file exist but the
    field file `run_000003/p.000000` does not. -/
def leakEnv : LoadEnv :=
  ⟨fun f =>
    if f == "run_000003.mfem_root" then some (FContent.rootC (some sampleRoot))
    else if f == "run_000003/mesh.000000" then some (FContent.meshC 2 2)
    else none⟩

/-- A disk state where only the manifest exists (the mesh file is missing). -/
def rootOnlyEnv : LoadEnv :=
  ⟨fun f =>
    if f == "run_000003.mfem_root" then some (FContent.rootC (some sampleRoot))
    else none⟩

/-- The state of the spec's concrete scenario on rank `r`: `name="run"`,
    `padDigits=6`, `cycle=3`, `rankCount=2`, one field `pressure` with one
    component, association `nodes`. -/
def scenarioState (r : Nat) : VisItState :=
  { name := "run", prefix_path := "", mesh := some 100
    field_map := [("pressure", some 101)], myid := r, num_procs := 2
    serial := false, own_data := false, cycle := 3, time := 0
    precision := 6, pad_digits := 6, error := ErrTy.NO_ERROR
    spatial_dim := 2, topo_dim := 2, visit_max_levels_of_detail := 32
    field_info_map := [("pressure", ⟨"nodes", 1⟩)] }

/-- A serial base collection with one registered field `f`, used to probe
    Save's error propagation (cycle `-1`, empty prefix). -/
def probeState : DCState :=
  { name := "a", prefix_path := "", mesh := some 100
    field_map := [("f", some 101)], myid := 0, num_procs := 1
    serial := true, own_data := false, cycle := -1, time := 0
    precision := 6, pad_digits := 6, error := ErrTy.NO_ERROR }

/-- `probeState` after a previous Save failed with `WRITE_ERROR`. -/
def probeStateW : DCState :=
  { probeState with error := ErrTy.WRITE_ERROR }

/-- `scenarioState 0` with a sticky `WRITE_ERROR`. -/
def scenarioStateW : VisItState :=
  { scenarioState 0 with error := ErrTy.WRITE_ERROR }

/-- A Save environment where only the mesh file of `probeState` fails. -/
def meshFailEnv : SaveEnv :=
  ⟨fun _ => true, fun f => f != "a/mesh"⟩

/-- A manifest that parses as JSON but whose mesh path has no underscore. -/
def noUnderscoreRoot (c t np : ℚ) (path : String) : JsonV :=
  JsonV.obj [("dsets", JsonV.obj [("main", JsonV.obj
    [("cycle", JsonV.num c),
     ("domains", JsonV.num np),
     ("mesh", JsonV.obj [("path", JsonV.str path)]),
     ("time", JsonV.num t)])])]

/-! ### Lemmas: decimal representation and `to_int ∘ to_string` -/

theorem natDigitsF_eq (f : Nat) : ∀ n : Nat, n ≤ f → natDigitsF f n = Nat.digits 10 n := by
  induction f with
  | zero =>
    intro n hn
    interval_cases n
    simp [natDigitsF]
  | succ f ih =>
    intro n hn
    match n with
    | 0 => simp [natDigitsF]
    | n + 1 =>
      have hdiv : (n + 1) / 10 ≤ f := by
        have := Nat.div_lt_self (Nat.succ_pos n) (by norm_num : 1 < 10)
        omega
      show (n + 1) % 10 :: natDigitsF f ((n + 1) / 10) = _
      rw [ih _ hdiv, Nat.digits_def' (by norm_num : 1 < 10) (Nat.succ_pos n)]

theorem natDigits_eq (n : Nat) : natDigits n = Nat.digits 10 n :=
  natDigitsF_eq n n le_rfl

theorem natDigits_lt {n d : Nat} (hd : d ∈ natDigits n) : d < 10 := by
  rw [natDigits_eq] at hd
  exact Nat.digits_lt_base (by norm_num) hd

theorem charDigit_digitChar {d : Nat} (h : d < 10) : charDigit (digitChar d) = d := by
  interval_cases d <;> rfl

theorem isDigitChar_digitChar {d : Nat} (h : d < 10) : isDigitChar (digitChar d) = true := by
  interval_cases d <;> rfl

theorem natRepr_all_digit {n : Nat} : ∀ c ∈ natRepr n, isDigitChar c = true := by
  intro c hc
  unfold natRepr at hc
  by_cases h : n = 0
  · simp [h] at hc
    subst hc
    rfl
  · simp only [h, if_false, List.mem_reverse, List.mem_map] at hc
    obtain ⟨d, hd, rfl⟩ := hc
    exact isDigitChar_digitChar (natDigits_lt hd)

theorem natRepr_ne_nil (n : Nat) : natRepr n ≠ [] := by
  unfold natRepr
  by_cases h : n = 0
  · simp [h]
  · have hne : Nat.digits 10 n ≠ [] := Nat.digits_ne_nil_iff_ne_zero.mpr h
    simp [h, natDigits_eq, hne]

theorem valMSF_append (l : List Nat) (d : Nat) : valMSF (l ++ [d]) = 10 * valMSF l + d := by
  simp [valMSF, List.foldl_append]

theorem valMSF_rev_digits : ∀ n : Nat, valMSF ((Nat.digits 10 n).reverse) = n := by
  intro n
  induction n using Nat.strong_induction_on with
  | _ n ih =>
    match n with
    | 0 => simp [valMSF]
    | n + 1 =>
      rw [Nat.digits_def' (by norm_num : 1 < 10) (Nat.succ_pos n), List.reverse_cons,
        valMSF_append, ih _ (Nat.div_lt_self (Nat.succ_pos n) (by norm_num))]
      omega

theorem valMSF_natRepr (n : Nat) : valMSF ((natRepr n).map charDigit) = n := by
  unfold natRepr
  by_cases h : n = 0
  · simp [h, valMSF, charDigit]
  · simp only [h, if_false, ← List.map_reverse, List.map_map]
    have hmap : (natDigits n).map (charDigit ∘ digitChar) = (natDigits n).map id :=
      List.map_congr_left (fun d hd => charDigit_digitChar (natDigits_lt hd))
    rw [List.map_reverse, hmap, List.map_id, natDigits_eq, valMSF_rev_digits]

theorem takeWhile_of_all {l : List Char} (h : ∀ c ∈ l, isDigitChar c = true) :
    l.takeWhile isDigitChar = l := by
  induction l with
  | nil => rfl
  | cons c t ih =>
    simp only [List.takeWhile_cons, h c (List.mem_cons_self c t), if_true]
    rw [ih (fun x hx => h x (List.mem_cons_of_mem c hx))]

theorem digit_not_special {c : Char} (h : isDigitChar c = true) :
    (c == ' ' || c == '\t' || c == '\n') = false ∧ (c == '-') = false ∧ (c == '+') = false := by
  unfold isDigitChar at h
  simp only [Bool.and_eq_true, decide_eq_true_eq] at h
  refine ⟨?_, ?_, ?_⟩
  · simp only [Bool.or_eq_false_iff]
    refine ⟨⟨?_, ?_⟩, ?_⟩ <;>
      (rw [beq_eq_false_iff_ne]; intro hc; subst hc; revert h; decide)
  · rw [beq_eq_false_iff_ne]; intro hc; subst hc; revert h; decide
  · rw [beq_eq_false_iff_ne]; intro hc; subst hc; revert h; decide

theorem to_int_to_string (i : Int) : to_int (to_string i) = i := by
  rcases le_or_lt 0 i with hpos | hneg
  · have hns : ¬ i < 0 := not_lt.mpr hpos
    have hdata : (to_string i).data = natRepr i.natAbs := by
      simp [to_string, hns]
    obtain ⟨c, t, hct⟩ : ∃ c t, natRepr i.natAbs = c :: t := by
      cases hh : natRepr i.natAbs with
      | nil => exact absurd hh (natRepr_ne_nil _)
      | cons c t => exact ⟨c, t, rfl⟩
    have hcd : isDigitChar c = true := by
      apply natRepr_all_digit
      rw [hct]; exact List.mem_cons_self c t
    obtain ⟨hws, hminus, hplus⟩ := digit_not_special hcd
    unfold to_int
    rw [hdata, hct, List.dropWhile_cons, hws]
    simp only [hminus, hplus, if_false, Bool.false_eq_true]
    rw [← hct, takeWhile_of_all (natRepr_all_digit), valMSF_natRepr,
      Int.natAbs_of_nonneg hpos]
  · have hdata : (to_string i).data = '-' :: natRepr i.natAbs := by
      simp [to_string, hneg]
    unfold to_int
    rw [hdata, List.dropWhile_cons]
    have hws : ('-' == ' ' || '-' == '\t' || '-' == '\n') = false := rfl
    rw [hws]
    simp only [if_false, Bool.false_eq_true]
    have hm : ('-' == '-') = true := rfl
    rw [hm]
    simp only [if_true]
    rw [takeWhile_of_all (natRepr_all_digit), valMSF_natRepr]
    omega

/-! ### Lemmas: fixed-width padding and lexicographic order (claim C8) -/

theorem digits_len_le {n d : Nat} (h : n < 10 ^ d) : (Nat.digits 10 n).length ≤ d := by
  by_contra hlen
  push_neg at hlen
  rcases Nat.eq_zero_or_pos n with rfl | hn
  · simp at hlen
  · have h1 : (10 : Nat) ^ (Nat.digits 10 n).length ≤ 10 * n :=
      Nat.base_pow_length_digits_le 10 n (by norm_num) (Nat.pos_iff_ne_zero.mp hn)
    have h2 : (10 : Nat) ^ (d + 1) ≤ 10 ^ (Nat.digits 10 n).length :=
      Nat.pow_le_pow_right (by norm_num) hlen
    rw [pow_succ] at h2
    have : 10 ^ d * 10 ≤ 10 * n := le_trans h2 h1
    omega

theorem fixedDigits_length (d n : Nat) : (fixedDigits d n).length = d := by
  simp [fixedDigits]

theorem fixedDigits_mem_lt {d n x : Nat} (hx : x ∈ fixedDigits d n) : x < 10 := by
  simp only [fixedDigits, List.mem_map, List.mem_range] at hx
  obtain ⟨k, _, rfl⟩ := hx
  exact Nat.mod_lt _ (by norm_num)

theorem fixedDigits_succ_last (d n : Nat) :
    fixedDigits (d + 1) n = fixedDigits d (n / 10) ++ [n % 10] := by
  unfold fixedDigits
  rw [List.range_succ, List.map_append]
  congr 1
  · apply List.map_congr_left
    intro k hk
    rw [List.mem_range] at hk
    have h1 : d + 1 - 1 - k = (d - 1 - k) + 1 := by omega
    rw [Nat.div_div_eq_div_mul, ← pow_succ', h1]
  · simp

theorem mod_pow_div_mod {n j d : Nat} (h : j < d) :
    n % 10 ^ d / 10 ^ j % 10 = n / 10 ^ j % 10 := by
  rw [← Nat.mod_mul_right_div_self, ← Nat.mod_mul_right_div_self n, ← pow_succ,
    Nat.mod_mod_of_dvd n (pow_dvd_pow 10 (by omega : j + 1 ≤ d))]

theorem fixedDigits_succ_head {d n : Nat} (h : n < 10 ^ (d + 1)) :
    fixedDigits (d + 1) n = n / 10 ^ d :: fixedDigits d (n % 10 ^ d) := by
  unfold fixedDigits
  rw [List.range_succ_eq_map, List.map_cons, List.map_map]
  congr 1
  · have hlt : n / 10 ^ d < 10 := by
      rw [Nat.div_lt_iff_lt_mul (Nat.pos_pow_of_pos d (by norm_num))]
      rw [pow_succ] at h
      omega
    simpa using Nat.mod_eq_of_lt hlt
  · apply List.map_congr_left
    intro k hk
    rw [List.mem_range] at hk
    simp only [Function.comp_apply]
    have h1 : d + 1 - 1 - (k + 1) = d - 1 - k := by omega
    rw [h1, mod_pow_div_mod (by omega : d - 1 - k < d)]

theorem divmod_lt_iff {b n m : Nat} (hb : 0 < b) :
    n < m ↔ (n / b < m / b ∨ (n / b = m / b ∧ n % b < m % b)) := by
  have h1 := Nat.div_add_mod n b
  have h2 := Nat.div_add_mod m b
  have h3 : n % b < b := Nat.mod_lt _ hb
  have h4 : m % b < b := Nat.mod_lt _ hb
  constructor
  · intro h
    rcases lt_trichotomy (n / b) (m / b) with hq | hq | hq
    · exact Or.inl hq
    · refine Or.inr ⟨hq, ?_⟩
      rw [hq] at h1
      omega
    · exfalso
      have h5 : b * (m / b) + b ≤ b * (n / b) := by
        have := Nat.mul_le_mul_left b (by omega : m / b + 1 ≤ n / b)
        rw [Nat.mul_add, Nat.mul_one] at this
        omega
      omega
  · intro h
    rcases h with hq | ⟨hq, hr⟩
    · have h5 : b * (n / b) + b ≤ b * (m / b) := by
        have := Nat.mul_le_mul_left b (by omega : n / b + 1 ≤ m / b)
        rw [Nat.mul_add, Nat.mul_one] at this
        omega
      omega
    · rw [hq] at h1
      omega

theorem lex_cons_iff {α : Type} {r : α → α → Prop} {a b : α} {l m : List α} :
    List.Lex r (a :: l) (b :: m) ↔ r a b ∨ (a = b ∧ List.Lex r l m) := by
  constructor
  · intro h
    cases h with
    | rel h => exact Or.inl h
    | cons h => exact Or.inr ⟨rfl, h⟩
  · intro h
    rcases h with h | ⟨rfl, h⟩
    · exact List.Lex.rel h
    · exact List.Lex.cons h

theorem fixedDigits_lex :
    ∀ d n m, n < 10 ^ d → m < 10 ^ d →
      (List.Lex (· < ·) (fixedDigits d n) (fixedDigits d m) ↔ n < m) := by
  intro d
  induction d with
  | zero =>
    intro n m hn hm
    interval_cases n
    interval_cases m
    simp only [fixedDigits, List.range_zero, List.map_nil]
    constructor
    · intro h
      exact absurd h (List.Lex.not_nil_right _ _)
    · omega
  | succ d ih =>
    intro n m hn hm
    rw [fixedDigits_succ_head hn, fixedDigits_succ_head hm, lex_cons_iff,
      ih _ _ (Nat.mod_lt _ (Nat.pos_pow_of_pos d (by norm_num)))
        (Nat.mod_lt _ (Nat.pos_pow_of_pos d (by norm_num)))]
    exact (divmod_lt_iff (Nat.pos_pow_of_pos d (by norm_num))).symm

theorem digitChar_lt_iff {a b : Nat} (ha : a < 10) (hb : b < 10) :
    (digitChar a < digitChar b) ↔ a < b := by
  interval_cases a <;> interval_cases b <;> decide

theorem digitChar_eq_iff {a b : Nat} (ha : a < 10) (hb : b < 10) :
    (digitChar a = digitChar b) ↔ a = b := by
  interval_cases a <;> interval_cases b <;> decide

theorem lex_map_digitChar :
    ∀ l m : List Nat, (∀ x ∈ l, x < 10) → (∀ x ∈ m, x < 10) →
      (List.Lex (· < ·) (l.map digitChar) (m.map digitChar) ↔ List.Lex (· < ·) l m) := by
  intro l
  induction l with
  | nil =>
    intro m _ _
    cases m with
    | nil =>
      constructor <;> (intro h; exact absurd h (List.Lex.not_nil_right _ _))
    | cons b bs =>
      simp only [List.map_nil, List.map_cons]
      constructor <;> (intro _; exact List.Lex.nil)
  | cons a as ih =>
    intro m hl hm
    cases m with
    | nil =>
      constructor <;> (intro h; exact absurd h (List.Lex.not_nil_right _ _))
    | cons b bs =>
      simp only [List.map_cons]
      have ha : a < 10 := hl a (List.mem_cons_self a as)
      have hb : b < 10 := hm b (List.mem_cons_self b bs)
      rw [lex_cons_iff, lex_cons_iff, digitChar_lt_iff ha hb, digitChar_eq_iff ha hb,
        ih bs (fun x hx => hl x (List.mem_cons_of_mem a hx))
          (fun x hx => hm x (List.mem_cons_of_mem b hx))]

theorem fixedDigits_eq_pad :
    ∀ d n, n < 10 ^ d →
      fixedDigits d n =
        List.replicate (d - (Nat.digits 10 n).length) 0 ++ (Nat.digits 10 n).reverse := by
  intro d
  induction d with
  | zero =>
    intro n hn
    interval_cases n
    simp [fixedDigits]
  | succ d ih =>
    intro n hn
    rw [fixedDigits_succ_last]
    rcases Nat.eq_zero_or_pos n with rfl | hp
    · rw [ih 0 (Nat.pos_pow_of_pos d (by norm_num))]
      simp [List.replicate_succ']
    · have hdiv : n / 10 < 10 ^ d := by
        rw [Nat.div_lt_iff_lt_mul (by norm_num : (0:Nat) < 10), ← pow_succ]
        exact hn
      rw [ih _ hdiv, Nat.digits_def' (by norm_num : 1 < 10) hp]
      have hlen : (Nat.digits 10 (n / 10)).length ≤ d := digits_len_le hdiv
      simp only [List.length_cons, List.reverse_cons, List.append_assoc]
      have h2 : d + 1 - ((Nat.digits 10 (n / 10)).length + 1) =
          d - (Nat.digits 10 (n / 10)).length := by omega
      rw [h2]

theorem strData_append (a b : String) : (a ++ b).data = a.data ++ b.data := by
  cases a
  cases b
  rfl

theorem to_padded_data {d n : Nat} (hd : 1 ≤ d) (h : n < 10 ^ d) :
    (to_padded_string (n : Int) d).data = (fixedDigits d n).map digitChar := by
  have hns : ¬ ((n : Int) < 0) := by omega
  have hrepr : (to_string (n : Int)).data = natRepr n := by
    simp [to_string, hns, Int.natAbs_ofNat]
  have hdc : digitChar 0 = '0' := rfl
  show (List.replicate (d - (to_string (n : Int)).data.length) '0' ++
    (to_string (n : Int)).data) = _
  rw [hrepr, fixedDigits_eq_pad d n h, List.map_append, List.map_replicate,
    List.map_reverse, hdc]
  unfold natRepr
  by_cases hz : n = 0
  · subst hz
    rw [if_pos rfl]
    simp only [Nat.digits_zero, List.map_nil, List.reverse_nil, List.append_nil,
      List.length_singleton]
    have hdd : d - List.length ([] : List Nat) = (d - 1) + 1 := by
      simp only [List.length_nil]
      omega
    rw [hdd, List.replicate_succ']
  · rw [if_neg hz]
    simp only [natDigits_eq, List.length_reverse, List.length_map]

theorem to_padded_length {d n : Nat} (hd : 1 ≤ d) (h : n < 10 ^ d) :
    (to_padded_string (n : Int) d).length = d := by
  show (to_padded_string (n : Int) d).data.length = d
  rw [to_padded_data hd h, List.length_map, fixedDigits_length]

theorem to_padded_all_digit {d n : Nat} (hd : 1 ≤ d) (h : n < 10 ^ d) :
    (to_padded_string (n : Int) d).data.all isDigitChar = true := by
  rw [to_padded_data hd h, List.all_eq_true]
  intro c hc
  rw [List.mem_map] at hc
  obtain ⟨x, hx, rfl⟩ := hc
  exact isDigitChar_digitChar (fixedDigits_mem_lt hx)

theorem lex_append_left_iff {p l m : List Char} :
    List.Lex (· < ·) (p ++ l) (p ++ m) ↔ List.Lex (· < ·) l m := by
  induction p with
  | nil => simp
  | cons a p ih => simpa only [List.cons_append, List.Lex.cons_iff] using ih

theorem to_padded_lt_iff {d n m : Nat} (hd : 1 ≤ d) (hn : n < 10 ^ d) (hm : m < 10 ^ d)
    (p : String) :
    ((p ++ to_padded_string (n : Int) d) < (p ++ to_padded_string (m : Int) d)) ↔ n < m := by
  rw [String.lt_iff_toList_lt]
  show (p ++ to_padded_string (n : Int) d).data < (p ++ to_padded_string (m : Int) d).data ↔ _
  rw [strData_append, strData_append, to_padded_data hd hn, to_padded_data hd hm]
  show List.Lex (· < ·) _ _ ↔ _
  rw [lex_append_left_iff,
    lex_map_digitChar _ _ (fun x hx => fixedDigits_mem_lt hx) (fun x hx => fixedDigits_mem_lt hx),
    fixedDigits_lex d n m hn hm]

/-! ### Lemmas: the sorted-map model -/

theorem charListLt_irrefl : ∀ l : List Char, charListLt l l = false := by
  intro l
  induction l with
  | nil => rfl
  | cons a t ih => simp [charListLt, ih]

theorem charListLt_asymm : ∀ l m : List Char, charListLt l m = true → charListLt m l = false := by
  intro l
  induction l with
  | nil =>
    intro m hm
    cases m with
    | nil => exact absurd hm (by simp [charListLt])
    | cons b bs => rfl
  | cons a as ih =>
    intro m hm
    cases m with
    | nil => exact absurd hm (by simp [charListLt])
    | cons b bs =>
      unfold charListLt at hm ⊢
      by_cases h1 : a.toNat < b.toNat
      · have h2 : ¬ b.toNat < a.toNat := by omega
        simp [h1, h2]
      · by_cases h2 : b.toNat < a.toNat
        · simp [h1, h2] at hm
        · simp only [h1, h2, if_false] at hm ⊢
          exact ih bs hm

theorem strLt_irrefl (s : String) : strLt s s = false := charListLt_irrefl s.data

theorem strLt_asymm {a b : String} (h : strLt a b = true) : strLt b a = false :=
  charListLt_asymm a.data b.data h

theorem strLt_ne {a b : String} (h : strLt a b = true) : a ≠ b := by
  intro heq
  subst heq
  rw [strLt_irrefl] at h
  exact absurd h (by simp)

theorem Smap_insert_gt {α : Type} (k : String) (v : α) :
    ∀ l : List (String × α), (∀ kv ∈ l, strLt kv.1 k = true) →
      Smap.insert k v l = l ++ [(k, v)] := by
  intro l
  induction l with
  | nil => intro _; rfl
  | cons hd t ih =>
    intro hall
    have h1 : strLt hd.1 k = true := hall hd (List.mem_cons_self hd t)
    have h2 : strLt k hd.1 = false := strLt_asymm h1
    have h3 : (k == hd.1) = false := by
      rw [beq_eq_false_iff_ne]
      exact fun he => strLt_ne h1 he.symm
    obtain ⟨k', v'⟩ := hd
    show Smap.insert k v ((k', v') :: t) = _
    unfold Smap.insert
    rw [h2]
    simp only [Bool.false_eq_true, if_false, h3]
    rw [ih (fun kv hkv => hall kv (List.mem_cons_of_mem _ hkv))]
    rfl

theorem Smap_foldl_insert {α β : Type} (g : String × β → α) :
    ∀ (l : List (String × β)) (acc : List (String × α)),
      l.Pairwise (fun a b => strLt a.1 b.1 = true) →
      (∀ a ∈ acc, ∀ b ∈ l, strLt a.1 b.1 = true) →
      l.foldl (fun m kv => Smap.insert kv.1 (g kv) m) acc =
        acc ++ l.map (fun kv => (kv.1, g kv)) := by
  intro l
  induction l with
  | nil => intro acc _ _; simp
  | cons hd t ih =>
    intro acc hp hacc
    have hpt := (List.pairwise_cons.mp hp).2
    have hhd := (List.pairwise_cons.mp hp).1
    simp only [List.foldl_cons]
    rw [Smap_insert_gt hd.1 (g hd) acc
      (fun a ha => hacc a ha hd (List.mem_cons_self hd t))]
    rw [ih (acc ++ [(hd.1, g hd)]) hpt ?side]
    case side =>
      intro a ha b hb
      rcases List.mem_append.mp ha with hin | hin
      · exact hacc a hin b (List.mem_cons_of_mem hd hb)
      · have : a = (hd.1, g hd) := by simpa using hin
        rw [this]
        exact hhd b hb
    simp

/-! ### Lemmas: frame facts about the operations -/

theorem deleteAll_frame (s : VisItState) (h : Heap) :
    ((VisItDataCollection.DeleteAll s h).1).error = s.error ∧
    ((VisItDataCollection.DeleteAll s h).1).name = s.name ∧
    ((VisItDataCollection.DeleteAll s h).1).cycle = s.cycle ∧
    ((VisItDataCollection.DeleteAll s h).1).time = s.time ∧
    ((VisItDataCollection.DeleteAll s h).1).num_procs = s.num_procs ∧
    ((VisItDataCollection.DeleteAll s h).1).serial = s.serial ∧
    ((VisItDataCollection.DeleteAll s h).1).myid = s.myid ∧
    ((VisItDataCollection.DeleteAll s h).1).pad_digits = s.pad_digits ∧
    ((VisItDataCollection.DeleteAll s h).1).prefix_path = s.prefix_path ∧
    ((VisItDataCollection.DeleteAll s h).1).own_data = false ∧
    ((VisItDataCollection.DeleteAll s h).1).mesh = none ∧
    ((VisItDataCollection.DeleteAll s h).1).field_map = [] ∧
    ((VisItDataCollection.DeleteAll s h).1).field_info_map = [] :=
  ⟨rfl, rfl, rfl, rfl, rfl, rfl, rfl, rfl, rfl, rfl, rfl, rfl, rfl⟩

theorem parse_error_cases (s : VisItState) (top : JsonV) :
    ((VisItDataCollection.ParseVisItRootJson s top).error = s.error ∧
       (VisItDataCollection.ParseVisItRootJson s top).serial = s.serial) ∨
    ((VisItDataCollection.ParseVisItRootJson s top).error = ErrTy.READ_ERROR ∧
       (VisItDataCollection.ParseVisItRootJson s top).serial = s.serial) := by
  unfold VisItDataCollection.ParseVisItRootJson
  rcases hf : (jstr (jget (jget (jget (jget top "dsets") "main") "mesh") "path")).data.findIdx?
      (fun ch => ch == '_') with _ | idx
  · right; exact ⟨rfl, rfl⟩
  · left; exact ⟨rfl, rfl⟩

theorem rootFile_trace (s : VisItState) (env : LoadEnv) (n : String) :
    (VisItDataCollection.LoadVisItRootFile s env n).2 = [FileEv.rootR n] := by
  unfold VisItDataCollection.LoadVisItRootFile
  cases hf : env.files n with
  | none => rfl
  | some c =>
    cases c with
    | rootC j => cases j with
      | none => rfl
      | some j => rfl
    | meshC sd td => rfl
    | fieldC => rfl

theorem rootFile_error_cases (s : VisItState) (env : LoadEnv) (n : String) :
    ((VisItDataCollection.LoadVisItRootFile s env n).1.error = s.error ∧
       (VisItDataCollection.LoadVisItRootFile s env n).1.serial = s.serial) ∨
    ((VisItDataCollection.LoadVisItRootFile s env n).1.error = ErrTy.READ_ERROR ∧
       (VisItDataCollection.LoadVisItRootFile s env n).1.serial = s.serial) := by
  unfold VisItDataCollection.LoadVisItRootFile
  cases hf : env.files n with
  | none => right; exact ⟨rfl, rfl⟩
  | some c =>
    cases c with
    | rootC j =>
      cases j with
      | none => right; exact ⟨rfl, rfl⟩
      | some j => exact parse_error_cases s j
    | meshC sd td => right; exact ⟨rfl, rfl⟩
    | fieldC => right; exact ⟨rfl, rfl⟩

theorem loadFieldsAux_serial (pl pr : String) (env : LoadEnv) :
    ∀ (l : List (String × VisItFieldInfo)) (s : VisItState) (h : Heap),
      ((loadFieldsAux pl pr env l s h).1).serial = s.serial := by
  intro l
  induction l with
  | nil => intro s h; rfl
  | cons hd t ih =>
    intro s h
    obtain ⟨k, i⟩ := hd
    show ((loadFieldsAux pl pr env ((k, i) :: t) s h).1).serial = s.serial
    unfold loadFieldsAux
    cases hf : env.files (pl ++ k ++ pr) with
    | none => rfl
    | some c =>
      cases c with
      | rootC j => rfl
      | meshC sd td => rfl
      | fieldC => exact ih _ _

theorem loadFields_serial (s : VisItState) (h : Heap) (env : LoadEnv) :
    ((VisItDataCollection.LoadFields s h env).1).serial = s.serial :=
  loadFieldsAux_serial _ _ env _ _ _

theorem loadMesh_frame (s : VisItState) (h : Heap) (env : LoadEnv) :
    ((VisItDataCollection.LoadMesh s h env).1).serial = s.serial := by
  unfold VisItDataCollection.LoadMesh
  cases hf : env.files (meshLoadPath s.toDCState) with
  | none => rfl
  | some c =>
    cases c with
    | rootC j => rfl
    | meshC sd td => rfl
    | fieldC => rfl

/-! ### Lemmas: Save mechanics -/

theorem field_save_path_error (s : DCState) (e : ErrTy) (k : String) :
    DataCollection.field_save_path { s with error := e } k
      = DataCollection.field_save_path s k := rfl

theorem saveOneField_exists (s : DCState) (env : SaveEnv) (k : String) :
    ∃ e, DataCollection.SaveOneField s env k
      = ({ s with error := e }, FileEv.fieldW (DataCollection.field_save_path s k)) := by
  unfold DataCollection.SaveOneField
  by_cases hw : env.writeOK (DataCollection.field_save_path s k) = false
  · exact ⟨ErrTy.WRITE_ERROR, by rw [if_pos hw]⟩
  · exact ⟨s.error, by rw [if_neg hw]⟩

theorem save_fold (env : SaveEnv) :
    ∀ (l : List (String × Option Nat)) (s : DCState) (t : List FileEv),
      (l.foldl
        (fun acc kv =>
          let r := DataCollection.SaveOneField acc.1 env kv.1
          (r.1, acc.2 ++ [r.2])) (s, t)).2
        = t ++ l.map (fun kv => FileEv.fieldW (DataCollection.field_save_path s kv.1)) ∧
      (l.foldl
        (fun acc kv =>
          let r := DataCollection.SaveOneField acc.1 env kv.1
          (r.1, acc.2 ++ [r.2])) (s, t)).1
        = { s with error :=
            (l.foldl
              (fun acc kv =>
                let r := DataCollection.SaveOneField acc.1 env kv.1
                (r.1, acc.2 ++ [r.2])) (s, t)).1.error } := by
  intro l
  induction l with
  | nil =>
    intro s t
    exact ⟨by simp, rfl⟩
  | cons hd tl ih =>
    intro s t
    obtain ⟨e, he⟩ := saveOneField_exists s env hd.1
    simp only [List.foldl_cons, he]
    obtain ⟨ih1, ih2⟩ := ih { s with error := e }
      (t ++ [FileEv.fieldW (DataCollection.field_save_path s hd.1)])
    constructor
    · rw [ih1]
      simp only [field_save_path_error, List.append_assoc]
      rfl
    · rw [ih2]

theorem saveMesh_dirs_ok (s : DCState) (env : SaveEnv)
    (hp : s.prefix_path = "" ∨ env.mkdirOK s.prefix_path = true)
    (hd : env.mkdirOK (dir_name s) = true) :
    DataCollection.SaveMesh s env =
      (if env.writeOK (DataCollection.mesh_save_path s) = false
        then ({ s with error := ErrTy.WRITE_ERROR },
          [FileEv.meshW (DataCollection.mesh_save_path s)])
        else (s, [FileEv.meshW (DataCollection.mesh_save_path s)])) := by
  unfold DataCollection.SaveMesh
  have h1 : ¬ (s.prefix_path ≠ "" ∧ env.mkdirOK s.prefix_path = false) := by
    rcases hp with hp | hp
    · intro hc; exact hc.1 hp
    · intro hc; rw [hp] at hc; exact absurd hc.2 (by simp)
  rw [if_neg h1, if_neg (by simp [hd])]

theorem ratToInt_intCast (z : Int) : ratToInt ((z : ℚ)) = z := by
  unfold ratToInt
  rw [Rat.num_intCast, Rat.den_intCast]
  simp

/-! ### The claims -/

/-- C2 (code bug evaluation): `Load` on a fresh collection, against a disk
    state where the manifest and mesh file exist but the field file is
    missing, ends with `READ_ERROR`, an empty collection and `own_data =
    false` — but the mesh object this very Load allocated (heap id 0) is
    still live and unreferenced: the rollback `DeleteAll` ran with
    `own_data` still false, so `DeleteData` nulled the handle without
    deleting the object.  The claim's "every mesh and field object acquired
    so far by that Load is released" fails on this input. -/
theorem claim2_load_leak_eval :
    (VisItDataCollection.Load (VisItDataCollection.mk0 "run") ⟨0, []⟩ leakEnv 3).1.error
        = ErrTy.READ_ERROR ∧
    (VisItDataCollection.Load (VisItDataCollection.mk0 "run") ⟨0, []⟩ leakEnv 3).1.own_data
        = false ∧
    (VisItDataCollection.Load (VisItDataCollection.mk0 "run") ⟨0, []⟩ leakEnv 3).1.mesh
        = none ∧
    (VisItDataCollection.Load (VisItDataCollection.mk0 "run") ⟨0, []⟩ leakEnv 3).1.field_map
        = [] ∧
    (VisItDataCollection.Load (VisItDataCollection.mk0 "run") ⟨0, []⟩ leakEnv 3).1.field_info_map
        = [] ∧
    (VisItDataCollection.Load (VisItDataCollection.mk0 "run") ⟨0, []⟩ leakEnv 3).2.1.live
        = [0] := by
  decide

/-- C3 (counterexample): a Save whose two directory creations succeed and
    whose mesh stream write fails.  The claim says every registered field's
    write is still attempted; in fact `Save` returns right after `SaveMesh`
    (`if (error) return;`), so the registered field `f` is never written:
    the trace holds only the mesh write. -/
theorem claim3_counterexample :
    (DataCollection.Save probeState meshFailEnv).1.error = ErrTy.WRITE_ERROR ∧
    (DataCollection.Save probeState meshFailEnv).2 = [FileEv.meshW "a/mesh"] ∧
    probeState.field_map = [("f", some 101)] ∧
    noFieldWrite (DataCollection.Save probeState meshFailEnv).2 = true := by
  decide

/-- C3 (amended): in a Save whose two directory creations succeed and that
    starts with no error set, a mesh stream-write failure sets `WriteError`
    and is fail-fast for the fields — no field write is attempted; when the
    mesh write succeeds, every registered field's write is attempted
    independently of the other fields' outcomes. -/
theorem claim3_save_error_propagation (s : DCState) (env : SaveEnv)
    (he : s.error = ErrTy.NO_ERROR)
    (hp : s.prefix_path = "" ∨ env.mkdirOK s.prefix_path = true)
    (hd : env.mkdirOK (dir_name s) = true) :
    (env.writeOK (DataCollection.mesh_save_path s) = false →
      (DataCollection.Save s env).1.error = ErrTy.WRITE_ERROR ∧
      (DataCollection.Save s env).2 = [FileEv.meshW (DataCollection.mesh_save_path s)]) ∧
    (env.writeOK (DataCollection.mesh_save_path s) = true →
      (DataCollection.Save s env).2 =
        FileEv.meshW (DataCollection.mesh_save_path s) ::
          s.field_map.map (fun kv => FileEv.fieldW (DataCollection.field_save_path s kv.1))) := by
  constructor
  · intro hw
    have hsm := saveMesh_dirs_ok s env hp hd
    rw [if_pos hw] at hsm
    unfold DataCollection.Save
    rw [hsm]
    rw [if_pos (by simp)]
    exact ⟨rfl, rfl⟩
  · intro hw
    have hsm := saveMesh_dirs_ok s env hp hd
    rw [if_neg (by simp [hw])] at hsm
    unfold DataCollection.Save
    rw [hsm]
    rw [if_neg (by simp [he])]
    obtain ⟨h1, _⟩ := save_fold env s.field_map s [FileEv.meshW (DataCollection.mesh_save_path s)]
    rw [h1]
    rfl

/-- C3 amended, witnessed at `probeState` with an all-succeeding
    environment except the mesh file. -/
theorem claim3_save_error_propagation_witness :
    (probeState.error = ErrTy.NO_ERROR ∧
      (probeState.prefix_path = "" ∨ meshFailEnv.mkdirOK probeState.prefix_path = true) ∧
      meshFailEnv.mkdirOK (dir_name probeState) = true ∧
      meshFailEnv.writeOK (DataCollection.mesh_save_path probeState) = false) ∧
    ((DataCollection.Save probeState meshFailEnv).1.error = ErrTy.WRITE_ERROR ∧
      (DataCollection.Save probeState meshFailEnv).2
        = [FileEv.meshW (DataCollection.mesh_save_path probeState)]) :=
  ⟨⟨rfl, Or.inl rfl, by decide, by decide⟩,
    (claim3_save_error_propagation probeState meshFailEnv rfl (Or.inl rfl) (by decide)).1
      (by decide)⟩

/-- C4 (counterexample): with a sticky `WRITE_ERROR`, `DeleteAll` does not
    clear the error state (nothing after construction ever resets it), and
    the next Save — run against a fully-writable disk — attempts no field
    write even though field `pressure` is registered: the claim's "clears
    the errorState" and "every registered field's write is still attempted"
    both fail. -/
theorem claim4_counterexample :
    ((VisItDataCollection.DeleteAll scenarioStateW ⟨0, []⟩).1).error = ErrTy.WRITE_ERROR ∧
    scenarioStateW.field_map = [("pressure", some 101)] ∧
    noFieldWrite (DataCollection.Save scenarioStateW.toDCState allOk).2 = true := by
  decide

/-- C7: borrowed-data invariant — when `own_data` is false, none of
    `SetMesh`, `RegisterField`, `DeleteData`, `DeleteAll` or the destructor
    frees any heap object (the heap is returned unchanged), for the base
    class and for the `VisIt` specialization alike. -/
theorem claim7_borrowed_data (s : DCState) (sv : VisItState) (h : Heap)
    (m : MeshObj) (k : String) (g : GFObj)
    (hb : s.own_data = false) (hbv : sv.own_data = false) :
    (DataCollection.SetMesh s h m).2 = h ∧
    (DataCollection.RegisterField s h k g).2 = h ∧
    (DataCollection.DeleteData s h).2 = h ∧
    (DataCollection.DeleteAll s h).2 = h ∧
    DataCollection.dtor s h = h ∧
    (VisItDataCollection.SetMesh sv h m).2 = h ∧
    (VisItDataCollection.RegisterField sv h k g).2 = h ∧
    (VisItDataCollection.DeleteAll sv h).2 = h ∧
    DataCollection.dtor sv.toDCState h = h := by
  have hnot : ¬ (s.own_data = true) := by simp [hb]
  have hnotv : ¬ (sv.own_data = true) := by simp [hbv]
  have hsm : ∀ (s' : DCState), s'.own_data = false → (DataCollection.SetMesh s' h m).2 = h := by
    intro s' hb'
    unfold DataCollection.SetMesh
    rw [if_neg (by simp [hb'])]
    cases m.par with
    | none => rfl
    | some p => rfl
  have hrf : ∀ (s' : DCState), s'.own_data = false →
      (DataCollection.RegisterField s' h k g).2 = h := by
    intro s' hb'
    unfold DataCollection.RegisterField
    cases hf : Smap.find? k s'.field_map with
    | none => rfl
    | some old =>
      show (if s'.own_data then h.free old else h) = h
      rw [if_neg (by simp [hb'])]
  have hdd : ∀ (s' : DCState), s'.own_data = false → (DataCollection.DeleteData s' h).2 = h := by
    intro s' hb'
    simp [DataCollection.DeleteData, hb']
  refine ⟨hsm s hb, hrf s hb, hdd s hb, ?_, ?_, ?_, ?_, ?_, ?_⟩
  · show (DataCollection.DeleteData s h).2 = h
    exact hdd s hb
  · unfold DataCollection.dtor
    rw [if_neg hnot]
  · exact hsm sv.toDCState hbv
  · exact hrf sv.toDCState hbv
  · show (DataCollection.DeleteData sv.toDCState h).2 = h
    exact hdd sv.toDCState hbv
  · unfold DataCollection.dtor
    rw [if_neg hnotv]

/-- C7 witness: a never-loaded collection holding a caller-registered mesh
    and field releases nothing. -/
theorem claim7_borrowed_data_witness :
    (probeState.own_data = false ∧ (scenarioState 0).own_data = false) ∧
    ((DataCollection.SetMesh probeState ⟨5, [1, 2]⟩ ⟨9, 2, 2, none⟩).2 = ⟨5, [1, 2]⟩ ∧
      (DataCollection.RegisterField probeState ⟨5, [1, 2]⟩ "f" ⟨9, 1⟩).2 = ⟨5, [1, 2]⟩ ∧
      (DataCollection.DeleteData probeState ⟨5, [1, 2]⟩).2 = ⟨5, [1, 2]⟩ ∧
      (DataCollection.DeleteAll probeState ⟨5, [1, 2]⟩).2 = ⟨5, [1, 2]⟩ ∧
      DataCollection.dtor probeState ⟨5, [1, 2]⟩ = ⟨5, [1, 2]⟩ ∧
      (VisItDataCollection.SetMesh (scenarioState 0) ⟨5, [1, 2]⟩ ⟨9, 2, 2, none⟩).2 = ⟨5, [1, 2]⟩ ∧
      (VisItDataCollection.RegisterField (scenarioState 0) ⟨5, [1, 2]⟩ "f" ⟨9, 1⟩).2 = ⟨5, [1, 2]⟩ ∧
      (VisItDataCollection.DeleteAll (scenarioState 0) ⟨5, [1, 2]⟩).2 = ⟨5, [1, 2]⟩ ∧
      DataCollection.dtor (scenarioState 0).toDCState ⟨5, [1, 2]⟩ = ⟨5, [1, 2]⟩) :=
  ⟨⟨rfl, rfl⟩,
    claim7_borrowed_data probeState (scenarioState 0) ⟨5, [1, 2]⟩ ⟨9, 2, 2, none⟩ "f" ⟨9, 1⟩
      rfl rfl⟩

/-- C8: for `padDigits ≥ 1` and `rankCount ≤ 10^padDigits`, the rank
    suffixes `pad(rank, padDigits)` of ranks below `rankCount` are
    fixed-width (`padDigits` characters), decimal (all digit characters,
    zero-filled), and the per-rank file names `p ++ pad(rank)` — `p` being
    any common `dir/entity.` prefix — compare lexicographically exactly as
    the ranks compare numerically. -/
theorem claim8_rank_padding (d : Nat) (hd : 1 ≤ d) (rc : Nat) (hrc : rc ≤ 10 ^ d)
    (i j : Nat) (hi : i < rc) (hj : j < rc) (p : String) :
    (to_padded_string (i : Int) d).length = d ∧
    (to_padded_string (i : Int) d).data.all isDigitChar = true ∧
    ((p ++ to_padded_string (i : Int) d) < (p ++ to_padded_string (j : Int) d) ↔ i < j) := by
  have hi1 : i < 10 ^ d := lt_of_lt_of_le hi hrc
  have hj1 : j < 10 ^ d := lt_of_lt_of_le hj hrc
  exact ⟨to_padded_length hd hi1, to_padded_all_digit hd hi1, to_padded_lt_iff hd hi1 hj1 p⟩

/-- C8 witness at `padDigits = 2`, `rankCount = 100`, ranks 3 and 10, with
    the common prefix `mesh.`. -/
theorem claim8_rank_padding_witness :
    (1 ≤ 2 ∧ (100 : Nat) ≤ 10 ^ 2 ∧ (3 : Nat) < 100 ∧ (10 : Nat) < 100) ∧
    ((to_padded_string ((3 : Nat) : Int) 2).length = 2 ∧
      (to_padded_string ((3 : Nat) : Int) 2).data.all isDigitChar = true ∧
      (("mesh." ++ to_padded_string ((3 : Nat) : Int) 2)
          < ("mesh." ++ to_padded_string ((10 : Nat) : Int) 2) ↔ (3 : Nat) < 10)) :=
  ⟨by decide,
    claim8_rank_padding 2 (by decide) 100 (by decide) 3 10 (by decide) (by decide) "mesh."⟩

theorem dcDeleteAll_error (s : DCState) (h : Heap) :
    ((DataCollection.DeleteAll s h).1).error = s.error := rfl

theorem loadMesh_fail (s : VisItState) (h : Heap) (env : LoadEnv)
    (hf : env.files (meshLoadPath s.toDCState) = none) :
    VisItDataCollection.LoadMesh s h env
      = ({ s with error := ErrTy.READ_ERROR }, h, [FileEv.meshR (meshLoadPath s.toDCState)]) := by
  unfold VisItDataCollection.LoadMesh
  rw [hf]

theorem load_error_sticky (s : VisItState) (h : Heap) (env : LoadEnv) (c : Int)
    (he : s.error ≠ ErrTy.NO_ERROR) :
    ((VisItDataCollection.Load s h env c).1).error ≠ ErrTy.NO_ERROR := by
  have hs2 : (VisItDataCollection.loadStage1 s h c).error = s.error := rfl
  have hp3 : (VisItDataCollection.LoadVisItRootFile (VisItDataCollection.loadStage1 s h c) env
      (rootFileName (VisItDataCollection.loadStage1 s h c).toDCState)).1.error
        ≠ ErrTy.NO_ERROR := by
    rcases rootFile_error_cases (VisItDataCollection.loadStage1 s h c) env
        (rootFileName (VisItDataCollection.loadStage1 s h c).toDCState) with ⟨h1, _⟩ | ⟨h1, _⟩
    · rw [h1, hs2]; exact he
    · rw [h1]; simp
  simp only [VisItDataCollection.Load]
  rw [if_neg hp3]
  dsimp only
  rw [if_neg hp3]
  dsimp only
  rw [if_neg hp3]
  dsimp only
  rw [(deleteAll_frame _ _).1]
  exact hp3

/-- C4 (amended): starting a fresh Load or DeleteAll does NOT clear the
    error state — no operation after construction resets it: `DeleteAll`
    returns the error unchanged and a Load started with an error set still
    ends with an error set.  A prior `WriteError` still lets the next Save
    attempt directory creation and the mesh write, but — because of the
    `if (error) return;` after `SaveMesh` — that Save call attempts no
    field write. -/
theorem claim4_error_reset (sv : VisItState) (s : DCState) (h : Heap) (env : LoadEnv)
    (senv : SaveEnv) (c : Int)
    (hev : sv.error ≠ ErrTy.NO_ERROR) (he : s.error ≠ ErrTy.NO_ERROR)
    (hp : s.prefix_path = "" ∨ senv.mkdirOK s.prefix_path = true)
    (hd : senv.mkdirOK (dir_name s) = true) :
    ((VisItDataCollection.DeleteAll sv h).1).error = sv.error ∧
    ((DataCollection.DeleteAll s h).1).error = s.error ∧
    ((VisItDataCollection.Load sv h env c).1).error ≠ ErrTy.NO_ERROR ∧
    (DataCollection.Save s senv).2 = [FileEv.meshW (DataCollection.mesh_save_path s)] := by
  refine ⟨(deleteAll_frame sv h).1, dcDeleteAll_error s h, load_error_sticky sv h env c hev, ?_⟩
  have hsm := saveMesh_dirs_ok s senv hp hd
  by_cases hw : senv.writeOK (DataCollection.mesh_save_path s) = false
  · rw [if_pos hw] at hsm
    unfold DataCollection.Save
    rw [hsm, if_pos (by simp)]
  · rw [if_neg hw] at hsm
    unfold DataCollection.Save
    rw [hsm, if_pos he]

/-- C4 amended, witnessed on a collection carrying a sticky `WriteError`:
    `DeleteAll` keeps the error, Load (against an empty disk) ends in
    error, and Save against a fully-writable disk writes only the mesh
    file. -/
theorem claim4_error_reset_witness :
    (scenarioStateW.error ≠ ErrTy.NO_ERROR ∧ probeStateW.error ≠ ErrTy.NO_ERROR ∧
      (probeStateW.prefix_path = "" ∨ allOk.mkdirOK probeStateW.prefix_path = true) ∧
      allOk.mkdirOK (dir_name probeStateW) = true) ∧
    (((VisItDataCollection.DeleteAll scenarioStateW ⟨0, []⟩).1).error = scenarioStateW.error ∧
      ((DataCollection.DeleteAll probeStateW ⟨0, []⟩).1).error = probeStateW.error ∧
      ((VisItDataCollection.Load scenarioStateW ⟨0, []⟩ ⟨fun _ => none⟩ 3).1).error
        ≠ ErrTy.NO_ERROR ∧
      (DataCollection.Save probeStateW allOk).2
        = [FileEv.meshW (DataCollection.mesh_save_path probeStateW)]) :=
  ⟨⟨by decide, by decide, Or.inl rfl, by decide⟩,
    claim4_error_reset scenarioStateW probeStateW ⟨0, []⟩ ⟨fun _ => none⟩ allOk 3
      (by decide) (by decide) (Or.inl rfl) (by decide)⟩

/-- C5: Load is stage-ordered fail-fast.  (a) Starting with no error set,
    when the root stage succeeds but opening the per-rank mesh file fails,
    the Load ends with `ReadError` and its trace contains no field-file
    open at all (`LoadFields` is never reached).  (b) Inside the field
    loop, when the loop reaches a field whose file is missing, that open is
    the last event of the loop — `ReadError` is set and none of the
    remaining fields is opened. -/
theorem claim5_load_failfast :
    (∀ (s : VisItState) (h : Heap) (env : LoadEnv) (c : Int),
      s.error = ErrTy.NO_ERROR →
      (VisItDataCollection.loadStage2 s h env c).error = ErrTy.NO_ERROR →
      env.files (meshLoadPath (VisItDataCollection.loadStage2 s h env c).toDCState) = none →
      ((VisItDataCollection.Load s h env c).1.error = ErrTy.READ_ERROR ∧
        noFieldRead (VisItDataCollection.Load s h env c).2.2 = true)) ∧
    (∀ (pl pr : String) (env : LoadEnv) (k : String) (v : VisItFieldInfo)
        (l2 : List (String × VisItFieldInfo)) (s : VisItState) (h : Heap),
      env.files (pl ++ k ++ pr) = none →
      ((loadFieldsAux pl pr env ((k, v) :: l2) s h).1.error = ErrTy.READ_ERROR ∧
        (loadFieldsAux pl pr env ((k, v) :: l2) s h).2.2
          = [FileEv.fieldR (pl ++ k ++ pr)])) := by
  constructor
  · intro s h env c _ hok hmf
    simp only [VisItDataCollection.loadStage2] at hok hmf
    simp only [VisItDataCollection.Load]
    rw [if_pos hok, loadMesh_fail _ _ _ hmf]
    dsimp only
    rw [if_neg (by simp)]
    dsimp only
    rw [if_neg (by simp)]
    dsimp only
    constructor
    · rw [(deleteAll_frame _ _).1]
    · rw [rootFile_trace]
      rfl
  · intro pl pr env k v l2 s h hf
    unfold loadFieldsAux
    rw [hf]
    exact ⟨rfl, rfl⟩

/-- C5 witness: a fresh `run` collection, a disk holding only the manifest
    `run_000003.mfem_root` — the mesh file is missing, so Load(3) sets
    `ReadError` without opening any field file; and the loop lemma applied
    to a one-field list against an empty disk. -/
theorem claim5_load_failfast_witness :
    ((VisItDataCollection.mk0 "run").error = ErrTy.NO_ERROR ∧
      (VisItDataCollection.loadStage2 (VisItDataCollection.mk0 "run") ⟨0, []⟩ rootOnlyEnv 3).error
        = ErrTy.NO_ERROR ∧
      rootOnlyEnv.files
        (meshLoadPath
          (VisItDataCollection.loadStage2 (VisItDataCollection.mk0 "run") ⟨0, []⟩
            rootOnlyEnv 3).toDCState) = none ∧
      (LoadEnv.files ⟨fun _ => none⟩ ("d/" ++ "p" ++ ".000000") = none)) ∧
    (((VisItDataCollection.Load (VisItDataCollection.mk0 "run") ⟨0, []⟩ rootOnlyEnv 3).1.error
        = ErrTy.READ_ERROR ∧
      noFieldRead
        (VisItDataCollection.Load (VisItDataCollection.mk0 "run") ⟨0, []⟩ rootOnlyEnv 3).2.2
        = true) ∧
      ((loadFieldsAux "d/" ".000000" ⟨fun _ => none⟩ [("p", ⟨"nodes", 1⟩)]
          (VisItDataCollection.mk0 "run") ⟨0, []⟩).1.error = ErrTy.READ_ERROR ∧
        (loadFieldsAux "d/" ".000000" ⟨fun _ => none⟩ [("p", ⟨"nodes", 1⟩)]
          (VisItDataCollection.mk0 "run") ⟨0, []⟩).2.2
          = [FileEv.fieldR ("d/" ++ "p" ++ ".000000")])) :=
  ⟨⟨rfl, by decide, rfl, rfl⟩,
    ⟨claim5_load_failfast.1 (VisItDataCollection.mk0 "run") ⟨0, []⟩ rootOnlyEnv 3
        rfl (by decide) rfl,
      claim5_load_failfast.2 "d/" ".000000" ⟨fun _ => none⟩ "p" ⟨"nodes", 1⟩ []
        (VisItDataCollection.mk0 "run") ⟨0, []⟩ rfl⟩⟩

/-! ### Serial-flag preservation (claim C10) -/

theorem saveMesh_exists (s : DCState) (env : SaveEnv) :
    ∃ e t, DataCollection.SaveMesh s env = ({ s with error := e }, t) := by
  unfold DataCollection.SaveMesh
  by_cases h1 : s.prefix_path ≠ "" ∧ env.mkdirOK s.prefix_path = false
  · exact ⟨ErrTy.WRITE_ERROR, [], by rw [if_pos h1]⟩
  · by_cases h2 : env.mkdirOK (dir_name s) = false
    · exact ⟨ErrTy.WRITE_ERROR, [], by rw [if_neg h1, if_pos h2]⟩
    · by_cases h3 : env.writeOK (DataCollection.mesh_save_path s) = false
      · exact ⟨ErrTy.WRITE_ERROR, [FileEv.meshW (DataCollection.mesh_save_path s)],
          by rw [if_neg h1, if_neg h2, if_pos h3]⟩
      · exact ⟨s.error, [FileEv.meshW (DataCollection.mesh_save_path s)],
          by rw [if_neg h1, if_neg h2, if_neg h3]⟩

theorem save_serial (s : DCState) (env : SaveEnv) :
    ((DataCollection.Save s env).1).serial = s.serial := by
  obtain ⟨e, t, hsm⟩ := saveMesh_exists s env
  unfold DataCollection.Save
  rw [hsm]
  dsimp only
  by_cases hE : e ≠ ErrTy.NO_ERROR
  · rw [if_pos hE]
  · rw [if_neg hE]
    rw [(save_fold env s.field_map { s with error := e } t).2]

theorem saveRootFile_serial (s : VisItState) (env : SaveEnv) :
    ((VisItDataCollection.SaveRootFile s env).1).serial = s.serial := by
  unfold VisItDataCollection.SaveRootFile
  by_cases h0 : s.myid = 0
  · rw [if_pos h0]
    by_cases hw : env.writeOK (rootFileName s.toDCState) = false
    · rw [if_pos hw]
    · rw [if_neg hw]
  · rw [if_neg h0]

theorem visitSave_serial (s : VisItState) (env : SaveEnv) :
    ((VisItDataCollection.Save s env).1).serial = s.serial := by
  unfold VisItDataCollection.Save
  dsimp only
  rw [saveRootFile_serial]
  show ((DataCollection.Save s.toDCState env).1).serial = s.serial
  rw [save_serial]

theorem load_serial (s : VisItState) (h : Heap) (env : LoadEnv) (c : Int) :
    ((VisItDataCollection.Load s h env c).1).serial = s.serial := by
  have hp3serial : (VisItDataCollection.LoadVisItRootFile (VisItDataCollection.loadStage1 s h c)
      env (rootFileName (VisItDataCollection.loadStage1 s h c).toDCState)).1.serial
        = s.serial := by
    rcases rootFile_error_cases (VisItDataCollection.loadStage1 s h c) env
        (rootFileName (VisItDataCollection.loadStage1 s h c).toDCState) with ⟨_, h2⟩ | ⟨_, h2⟩ <;>
      exact h2
  simp only [VisItDataCollection.Load]
  by_cases h3 : (VisItDataCollection.LoadVisItRootFile (VisItDataCollection.loadStage1 s h c)
      env (rootFileName (VisItDataCollection.loadStage1 s h c).toDCState)).1.error
        = ErrTy.NO_ERROR
  · rw [if_pos h3]
    by_cases h4 : (VisItDataCollection.LoadMesh
        (VisItDataCollection.LoadVisItRootFile (VisItDataCollection.loadStage1 s h c) env
          (rootFileName (VisItDataCollection.loadStage1 s h c).toDCState)).1
        (VisItDataCollection.DeleteAll s h).2 env).1.error = ErrTy.NO_ERROR
    · rw [if_pos h4]
      by_cases h5 : (VisItDataCollection.LoadFields (VisItDataCollection.LoadMesh
          (VisItDataCollection.LoadVisItRootFile (VisItDataCollection.loadStage1 s h c) env
            (rootFileName (VisItDataCollection.loadStage1 s h c).toDCState)).1
          (VisItDataCollection.DeleteAll s h).2 env).1
          (VisItDataCollection.LoadMesh
          (VisItDataCollection.LoadVisItRootFile (VisItDataCollection.loadStage1 s h c) env
            (rootFileName (VisItDataCollection.loadStage1 s h c).toDCState)).1
          (VisItDataCollection.DeleteAll s h).2 env).2.1 env).1.error = ErrTy.NO_ERROR
      · rw [if_pos h5]
        show ((VisItDataCollection.LoadFields _ _ env).1).serial = s.serial
        rw [loadFields_serial, loadMesh_frame, hp3serial]
      · rw [if_neg h5]
        dsimp only
        rw [(deleteAll_frame _ _).2.2.2.2.2.1, loadFields_serial, loadMesh_frame, hp3serial]
    · rw [if_neg h4]
      dsimp only
      rw [if_neg h4]
      dsimp only
      rw [(deleteAll_frame _ _).2.2.2.2.2.1, loadMesh_frame, hp3serial]
  · rw [if_neg h3]
    dsimp only
    rw [if_neg h3]
    dsimp only
    rw [if_neg h3]
    dsimp only
    rw [(deleteAll_frame _ _).2.2.2.2.2.1, hp3serial]

/-- C10: the IndexedCollection always suffixes — both `VisItDataCollection`
    constructors force `serial = false` and `cycle = 0`, `SetMesh` re-forces
    `serial = false`, every operation of the specialization preserves
    `serial = false`, and with `serial = false` every mesh/field file name
    carries the zero-padded rank suffix while the working directory carries
    the cycle suffix (`run_000000/mesh.000000` right after construction) —
    unlike a base `DataCollection` with `rankCount == 1`, whose names are
    `run/mesh` (no rank suffix, no cycle suffix at cycle `-1`). -/
theorem claim10_always_suffixed :
    (∀ n, (VisItDataCollection.mk0 n).serial = false ∧ (VisItDataCollection.mk0 n).cycle = 0) ∧
    (∀ n m, (VisItDataCollection.mkWithMesh n m).serial = false ∧
      (VisItDataCollection.mkWithMesh n m).cycle = 0) ∧
    (∀ (s : VisItState) (h : Heap) (m : MeshObj),
      ((VisItDataCollection.SetMesh s h m).1).serial = false) ∧
    (∀ (s : VisItState) (h : Heap) (k : String) (g : GFObj), s.serial = false →
      ((VisItDataCollection.RegisterField s h k g).1).serial = false) ∧
    (∀ (s : VisItState) (m : Int), s.serial = false →
      (VisItDataCollection.SetMaxLevelsOfDetail s m).serial = false) ∧
    (∀ (s : VisItState) (h : Heap), s.serial = false →
      ((VisItDataCollection.DeleteAll s h).1).serial = false) ∧
    (∀ (s : VisItState) (env : SaveEnv), s.serial = false →
      ((VisItDataCollection.Save s env).1).serial = false) ∧
    (∀ (s : VisItState) (env : SaveEnv), s.serial = false →
      ((VisItDataCollection.SaveRootFile s env).1).serial = false) ∧
    (∀ (s : VisItState) (h : Heap) (env : LoadEnv) (c : Int), s.serial = false →
      ((VisItDataCollection.Load s h env c).1).serial = false) ∧
    (∀ (s : DCState) (k : String), s.serial = false →
      DataCollection.mesh_save_path s
          = dir_name s ++ "/mesh." ++ to_padded_string (s.myid : Int) s.pad_digits ∧
      DataCollection.field_save_path s k
          = dir_name s ++ "/" ++ k ++ "." ++ to_padded_string (s.myid : Int) s.pad_digits) ∧
    (DataCollection.mesh_save_path (VisItDataCollection.mkWithMesh "run" ⟨9, 2, 2, none⟩).toDCState
        = "run_000000/mesh.000000") ∧
    ((DataCollection.mkWithMesh "run" ⟨9, 2, 2, none⟩).serial = true ∧
      DataCollection.mesh_save_path (DataCollection.mkWithMesh "run" ⟨9, 2, 2, none⟩)
        = "run/mesh") := by
  refine ⟨fun n => ⟨rfl, rfl⟩, fun n m => ⟨rfl, rfl⟩, fun s h m => rfl,
    fun s h k g hs => hs, fun s m hs => hs, ?_, ?_, ?_, ?_, ?_, ?_, ?_⟩
  · intro s h hs
    rw [(deleteAll_frame s h).2.2.2.2.2.1]
    exact hs
  · intro s env hs
    rw [visitSave_serial]
    exact hs
  · intro s env hs
    rw [saveRootFile_serial]
    exact hs
  · intro s h env c hs
    rw [load_serial]
    exact hs
  · intro s k hs
    constructor
    · unfold DataCollection.mesh_save_path
      rw [if_neg (by simp [hs])]
    · unfold DataCollection.field_save_path
      rw [if_neg (by simp [hs])]
  · decide
  · decide

/-- C10 witness: the invariant-preservation conjuncts applied to the
    concrete two-rank scenario state (whose `serial` is `false`). -/
theorem claim10_always_suffixed_witness :
    ((scenarioState 0).serial = false) ∧
    (((VisItDataCollection.RegisterField (scenarioState 0) ⟨0, []⟩ "f" ⟨9, 1⟩).1).serial
        = false ∧
      ((VisItDataCollection.DeleteAll (scenarioState 0) ⟨0, []⟩).1).serial = false ∧
      ((VisItDataCollection.Save (scenarioState 0) allOk).1).serial = false ∧
      ((VisItDataCollection.Load (scenarioState 0) ⟨0, []⟩ ⟨fun _ => none⟩ 3).1).serial
        = false ∧
      (DataCollection.mesh_save_path (scenarioState 0).toDCState
          = dir_name (scenarioState 0).toDCState ++ "/mesh."
            ++ to_padded_string (((scenarioState 0).toDCState.myid : Int))
              (scenarioState 0).toDCState.pad_digits ∧
        DataCollection.field_save_path (scenarioState 0).toDCState "pressure"
          = dir_name (scenarioState 0).toDCState ++ "/" ++ "pressure" ++ "."
            ++ to_padded_string (((scenarioState 0).toDCState.myid : Int))
              (scenarioState 0).toDCState.pad_digits)) :=
  ⟨rfl,
    ⟨claim10_always_suffixed.2.2.2.1 (scenarioState 0) ⟨0, []⟩ "f" ⟨9, 1⟩ rfl,
      claim10_always_suffixed.2.2.2.2.2.1 (scenarioState 0) ⟨0, []⟩ rfl,
      claim10_always_suffixed.2.2.2.2.2.2.1 (scenarioState 0) allOk rfl,
      claim10_always_suffixed.2.2.2.2.2.2.2.2.1 (scenarioState 0) ⟨0, []⟩ ⟨fun _ => none⟩ 3 rfl,
      claim10_always_suffixed.2.2.2.2.2.2.2.2.2.1 (scenarioState 0).toDCState "pressure" rfl⟩⟩

/-- C6: the naming rule — the working directory is `prefixPath ++ name`
    at cycle `-1` and `prefixPath ++ name ++ "_" ++ pad(cycle, padDigits)`
    otherwise; an entity file is `dir/E` when serial, `dir/E.pad(rank)`
    otherwise; and in the concrete scenario (`run`, padDigits 6, cycle 3,
    two ranks, one field `pressure` with one component), Save produces
    exactly `run_000003/mesh.000000`/`mesh.000001`,
    `run_000003/pressure.000000`/`pressure.000001`, rank 0 writes the
    manifest `run_000003.mfem_root`, and the manifest contains
    `"domains": 2`, `"cycle": 3` and a `pressure` entry with
    `"comps": "1"`. -/
theorem claim6_naming :
    (∀ s : DCState, dir_name s = s.prefix_path ++
        (if s.cycle = -1 then s.name
         else s.name ++ "_" ++ to_padded_string s.cycle s.pad_digits)) ∧
    (∀ (s : DCState) (k : String),
      DataCollection.mesh_save_path s
          = (if s.serial then dir_name s ++ "/mesh"
             else dir_name s ++ "/mesh." ++ to_padded_string (s.myid : Int) s.pad_digits) ∧
      DataCollection.field_save_path s k
          = (if s.serial then dir_name s ++ "/" ++ k
             else dir_name s ++ "/" ++ k ++ "." ++ to_padded_string (s.myid : Int) s.pad_digits)) ∧
    ((DataCollection.Save (scenarioState 0).toDCState allOk).2
        = [FileEv.meshW "run_000003/mesh.000000", FileEv.fieldW "run_000003/pressure.000000"]) ∧
    ((DataCollection.Save (scenarioState 1).toDCState allOk).2
        = [FileEv.meshW "run_000003/mesh.000001", FileEv.fieldW "run_000003/pressure.000001"]) ∧
    ((VisItDataCollection.Save (scenarioState 0) allOk).2
        = [FileEv.meshW "run_000003/mesh.000000", FileEv.fieldW "run_000003/pressure.000000",
           FileEv.rootW "run_000003.mfem_root"]) ∧
    (jnum (jget (jget (jget (VisItDataCollection.GetVisItRootJson (scenarioState 0)) "dsets")
        "main") "domains") = 2) ∧
    (jnum (jget (jget (jget (VisItDataCollection.GetVisItRootJson (scenarioState 0)) "dsets")
        "main") "cycle") = 3) ∧
    (jstr (jget (jget (jget (jget (jget (jget (VisItDataCollection.GetVisItRootJson
        (scenarioState 0)) "dsets") "main") "fields") "pressure") "tags") "comps") = "1") := by
  refine ⟨fun s => rfl, fun s k => ⟨rfl, rfl⟩, ?_, ?_, ?_, ?_, ?_, ?_⟩ <;> decide

/-! ### Claim C9: partial state mutation on a malformed manifest -/

theorem findIdx_none_of_all_ne {l : List Char} (hp : l.all (fun ch => ch != '_') = true) :
    l.findIdx? (fun ch => ch == '_') = none := by
  rw [List.findIdx?_eq_none_iff]
  intro x hx
  have := List.all_eq_true.mp hp x hx
  simpa using this

theorem parse_noUnderscore (s : VisItState) (c t np : ℚ) (path : String)
    (hp : path.data.all (fun ch => ch != '_') = true) :
    (VisItDataCollection.ParseVisItRootJson s (noUnderscoreRoot c t np path)).error
        = ErrTy.READ_ERROR ∧
    (VisItDataCollection.ParseVisItRootJson s (noUnderscoreRoot c t np path)).name = s.name ∧
    (VisItDataCollection.ParseVisItRootJson s (noUnderscoreRoot c t np path)).spatial_dim
        = s.spatial_dim ∧
    (VisItDataCollection.ParseVisItRootJson s (noUnderscoreRoot c t np path)).topo_dim
        = s.topo_dim ∧
    (VisItDataCollection.ParseVisItRootJson s (noUnderscoreRoot c t np path)).field_info_map
        = s.field_info_map ∧
    (VisItDataCollection.ParseVisItRootJson s (noUnderscoreRoot c t np path)).visit_max_levels_of_detail
        = s.visit_max_levels_of_detail ∧
    (VisItDataCollection.ParseVisItRootJson s (noUnderscoreRoot c t np path)).cycle
        = ratToInt c ∧
    (VisItDataCollection.ParseVisItRootJson s (noUnderscoreRoot c t np path)).time = t ∧
    (VisItDataCollection.ParseVisItRootJson s (noUnderscoreRoot c t np path)).num_procs
        = ratToInt np ∧
    (VisItDataCollection.ParseVisItRootJson s (noUnderscoreRoot c t np path)).serial
        = s.serial ∧
    (VisItDataCollection.ParseVisItRootJson s (noUnderscoreRoot c t np path)).own_data
        = s.own_data ∧
    (VisItDataCollection.ParseVisItRootJson s (noUnderscoreRoot c t np path)).mesh = s.mesh ∧
    (VisItDataCollection.ParseVisItRootJson s (noUnderscoreRoot c t np path)).field_map
        = s.field_map := by
  have hjp : jstr (jget (jget (jget (jget (noUnderscoreRoot c t np path) "dsets") "main")
      "mesh") "path") = path := rfl
  unfold VisItDataCollection.ParseVisItRootJson
  rw [hjp, findIdx_none_of_all_ne hp]
  exact ⟨rfl, rfl, rfl, rfl, rfl, rfl, rfl, rfl, rfl, rfl, rfl, rfl, rfl⟩

/-- C9 (implicit): when Load reads a manifest that parses as JSON but whose
    mesh path has no underscore, `ParseVisItRootString` sets `ReadError`
    and leaves `name`, the dimension tags and `field_info_map` untouched,
    but it has already overwritten `cycle`, `time` and `num_procs` with the
    manifest's values; and the rollback `DeleteAll` at the end of that Load
    does not restore those three fields — the final state carries the
    malformed manifest's cycle, time and rank count. -/
theorem claim9_partial_mutation (s : VisItState) (h : Heap) (env : LoadEnv)
    (c t np : ℚ) (path : String) (creq : Int)
    (hp : path.data.all (fun ch => ch != '_') = true)
    (henv : env.files (rootFileName (VisItDataCollection.loadStage1 s h creq).toDCState)
      = some (FContent.rootC (some (noUnderscoreRoot c t np path)))) :
    ((VisItDataCollection.ParseVisItRootJson s (noUnderscoreRoot c t np path)).error
        = ErrTy.READ_ERROR ∧
      (VisItDataCollection.ParseVisItRootJson s (noUnderscoreRoot c t np path)).name = s.name ∧
      (VisItDataCollection.ParseVisItRootJson s (noUnderscoreRoot c t np path)).spatial_dim
        = s.spatial_dim ∧
      (VisItDataCollection.ParseVisItRootJson s (noUnderscoreRoot c t np path)).topo_dim
        = s.topo_dim ∧
      (VisItDataCollection.ParseVisItRootJson s (noUnderscoreRoot c t np path)).field_info_map
        = s.field_info_map ∧
      (VisItDataCollection.ParseVisItRootJson s (noUnderscoreRoot c t np path)).cycle
        = ratToInt c ∧
      (VisItDataCollection.ParseVisItRootJson s (noUnderscoreRoot c t np path)).time = t ∧
      (VisItDataCollection.ParseVisItRootJson s (noUnderscoreRoot c t np path)).num_procs
        = ratToInt np) ∧
    ((VisItDataCollection.Load s h env creq).1.error = ErrTy.READ_ERROR ∧
      (VisItDataCollection.Load s h env creq).1.cycle = ratToInt c ∧
      (VisItDataCollection.Load s h env creq).1.time = t ∧
      (VisItDataCollection.Load s h env creq).1.num_procs = ratToInt np) := by
  obtain ⟨p1, p2, p3, p4, p5, p6, p7, p8, p9, _, _, _, _⟩ :=
    parse_noUnderscore s c t np path hp
  obtain ⟨q1, _, _, _, _, _, q7, q8, q9, _, _, _, _⟩ :=
    parse_noUnderscore (VisItDataCollection.loadStage1 s h creq) c t np path hp
  refine ⟨⟨p1, p2, p3, p4, p5, p7, p8, p9⟩, ?_⟩
  have hroot : VisItDataCollection.LoadVisItRootFile (VisItDataCollection.loadStage1 s h creq)
      env (rootFileName (VisItDataCollection.loadStage1 s h creq).toDCState)
      = (VisItDataCollection.ParseVisItRootJson (VisItDataCollection.loadStage1 s h creq)
          (noUnderscoreRoot c t np path),
        [FileEv.rootR (rootFileName (VisItDataCollection.loadStage1 s h creq).toDCState)]) := by
    unfold VisItDataCollection.LoadVisItRootFile
    rw [henv]
  have hner : (VisItDataCollection.LoadVisItRootFile (VisItDataCollection.loadStage1 s h creq)
      env (rootFileName (VisItDataCollection.loadStage1 s h creq).toDCState)).1.error
        ≠ ErrTy.NO_ERROR := by
    rw [hroot]
    dsimp only
    rw [q1]
    simp
  simp only [VisItDataCollection.Load]
  rw [if_neg hner]
  dsimp only
  rw [if_neg hner]
  dsimp only
  rw [if_neg hner]
  dsimp only
  rw [hroot]
  dsimp only
  refine ⟨?_, ?_, ?_, ?_⟩
  · rw [(deleteAll_frame _ _).1, q1]
  · rw [(deleteAll_frame _ _).2.2.1, q7]
  · rw [(deleteAll_frame _ _).2.2.2.1, q8]
  · rw [(deleteAll_frame _ _).2.2.2.2.1, q9]

/-- C9 witness: a concrete malformed manifest (mesh path `nounderscore`)
    served as the root file of `Load(7)` on the two-rank scenario state. -/
theorem claim9_partial_mutation_witness :
    (("nounderscore" : String).data.all (fun ch => ch != '_') = true ∧
      (LoadEnv.files ⟨fun f =>
          if f == rootFileName
              (VisItDataCollection.loadStage1 (scenarioState 0) ⟨0, []⟩ 7).toDCState
          then some (FContent.rootC (some (noUnderscoreRoot 5 (1/2) 4 "nounderscore")))
          else none⟩)
        (rootFileName (VisItDataCollection.loadStage1 (scenarioState 0) ⟨0, []⟩ 7).toDCState)
        = some (FContent.rootC (some (noUnderscoreRoot 5 (1/2) 4 "nounderscore")))) ∧
    (((VisItDataCollection.ParseVisItRootJson (scenarioState 0)
          (noUnderscoreRoot 5 (1/2) 4 "nounderscore")).error = ErrTy.READ_ERROR ∧
        (VisItDataCollection.ParseVisItRootJson (scenarioState 0)
          (noUnderscoreRoot 5 (1/2) 4 "nounderscore")).name = (scenarioState 0).name ∧
        (VisItDataCollection.ParseVisItRootJson (scenarioState 0)
          (noUnderscoreRoot 5 (1/2) 4 "nounderscore")).spatial_dim
            = (scenarioState 0).spatial_dim ∧
        (VisItDataCollection.ParseVisItRootJson (scenarioState 0)
          (noUnderscoreRoot 5 (1/2) 4 "nounderscore")).topo_dim
            = (scenarioState 0).topo_dim ∧
        (VisItDataCollection.ParseVisItRootJson (scenarioState 0)
          (noUnderscoreRoot 5 (1/2) 4 "nounderscore")).field_info_map
            = (scenarioState 0).field_info_map ∧
        (VisItDataCollection.ParseVisItRootJson (scenarioState 0)
          (noUnderscoreRoot 5 (1/2) 4 "nounderscore")).cycle = ratToInt 5 ∧
        (VisItDataCollection.ParseVisItRootJson (scenarioState 0)
          (noUnderscoreRoot 5 (1/2) 4 "nounderscore")).time = 1/2 ∧
        (VisItDataCollection.ParseVisItRootJson (scenarioState 0)
          (noUnderscoreRoot 5 (1/2) 4 "nounderscore")).num_procs = ratToInt 4) ∧
      ((VisItDataCollection.Load (scenarioState 0) ⟨0, []⟩ ⟨fun f =>
            if f == rootFileName
                (VisItDataCollection.loadStage1 (scenarioState 0) ⟨0, []⟩ 7).toDCState
            then some (FContent.rootC (some (noUnderscoreRoot 5 (1/2) 4 "nounderscore")))
            else none⟩ 7).1.error = ErrTy.READ_ERROR ∧
        (VisItDataCollection.Load (scenarioState 0) ⟨0, []⟩ ⟨fun f =>
            if f == rootFileName
                (VisItDataCollection.loadStage1 (scenarioState 0) ⟨0, []⟩ 7).toDCState
            then some (FContent.rootC (some (noUnderscoreRoot 5 (1/2) 4 "nounderscore")))
            else none⟩ 7).1.cycle = ratToInt 5 ∧
        (VisItDataCollection.Load (scenarioState 0) ⟨0, []⟩ ⟨fun f =>
            if f == rootFileName
                (VisItDataCollection.loadStage1 (scenarioState 0) ⟨0, []⟩ 7).toDCState
            then some (FContent.rootC (some (noUnderscoreRoot 5 (1/2) 4 "nounderscore")))
            else none⟩ 7).1.time = 1/2 ∧
        (VisItDataCollection.Load (scenarioState 0) ⟨0, []⟩ ⟨fun f =>
            if f == rootFileName
                (VisItDataCollection.loadStage1 (scenarioState 0) ⟨0, []⟩ 7).toDCState
            then some (FContent.rootC (some (noUnderscoreRoot 5 (1/2) 4 "nounderscore")))
            else none⟩ 7).1.num_procs = ratToInt 4)) :=
  ⟨⟨by decide, rfl⟩,
    claim9_partial_mutation (scenarioState 0) ⟨0, []⟩ ⟨fun f =>
        if f == rootFileName
            (VisItDataCollection.loadStage1 (scenarioState 0) ⟨0, []⟩ 7).toDCState
        then some (FContent.rootC (some (noUnderscoreRoot 5 (1/2) 4 "nounderscore")))
        else none⟩ 5 (1/2) 4 "nounderscore" 7 (by decide) rfl⟩

/-! ### Claim C1: the manifest round trip -/

theorem findIdx_some_of_mem {l : List Char} {c : Char} (h : c ∈ l) :
    ∃ i, l.findIdx? (fun ch => ch == c) = some i := by
  have hsome : (l.findIdx? (fun ch => ch == c)).isSome = true := by
    rw [List.findIdx?_isSome, List.any_eq_true]
    exact ⟨c, h, by simp⟩
  cases hopt : l.findIdx? (fun ch => ch == c) with
  | none => rw [hopt] at hsome; simp at hsome
  | some i => exact ⟨i, rfl⟩

theorem build_eq (s : VisItState) :
    VisItDataCollection.GetVisItRootJson s
      = JsonV.obj [("dsets", JsonV.obj [("main", JsonV.obj (visitMainList s))])] := rfl

theorem mainget_eq (s : VisItState) :
    jget (jget (VisItDataCollection.GetVisItRootJson s) "dsets") "main"
      = JsonV.obj (visitMainList s) := rfl

theorem mainLookup (s : VisItState) :
    Smap.find? "cycle" (visitMainList s) = some (JsonV.num (s.cycle : ℚ)) ∧
    Smap.find? "time" (visitMainList s) = some (JsonV.num s.time) ∧
    Smap.find? "domains" (visitMainList s) = some (JsonV.num (s.num_procs : ℚ)) ∧
    Smap.find? "mesh" (visitMainList s) = some (JsonV.obj (visitMeshEntry s)) ∧
    Smap.find? "fields" (visitMainList s)
      = (if s.field_info_map.isEmpty then none
         else some (JsonV.obj
           (visitFieldsObj (visitPathStr s) (visitExt s) s.field_info_map))) := by
  unfold visitMainList
  by_cases hE : s.field_info_map.isEmpty = true
  · rw [if_pos hE, if_pos hE]
    exact ⟨rfl, rfl, rfl, rfl, rfl⟩
  · rw [if_neg hE, if_neg hE]
    exact ⟨rfl, rfl, rfl, rfl, rfl⟩

theorem meshEntryLookup (s : VisItState) :
    jstr (jget (JsonV.obj (visitMeshEntry s)) "path")
        = visitPathStr s ++ "mesh" ++ visitExt s ∧
    jstr (jget (jget (JsonV.obj (visitMeshEntry s)) "tags") "spatial_dim")
        = to_string s.spatial_dim ∧
    jstr (jget (jget (JsonV.obj (visitMeshEntry s)) "tags") "topo_dim")
        = to_string s.topo_dim :=
  ⟨rfl, rfl, rfl⟩

theorem underscore_mem_path (s : VisItState) :
    '_' ∈ (visitPathStr s ++ "mesh" ++ visitExt s).data := by
  have h0 : '_' ∈ ("_" : String).data := by decide
  have h1 : '_' ∈ (visitPathStr s).data := by
    unfold visitPathStr
    rw [strData_append, strData_append, strData_append]
    exact List.mem_append.mpr (Or.inl (List.mem_append.mpr (Or.inl
      (List.mem_append.mpr (Or.inr h0)))))
  rw [strData_append, strData_append]
  exact List.mem_append.mpr (Or.inl (List.mem_append.mpr (Or.inl h1)))

theorem visitFieldsObj_eq_map (ps ext : String) (l : List (String × VisItFieldInfo))
    (hl : l.Pairwise (fun a b => strLt a.1 b.1 = true)) :
    visitFieldsObj ps ext l = l.map (fun kv => (kv.1, visitFieldEntry ps ext kv.1 kv.2)) := by
  unfold visitFieldsObj
  have h := Smap_foldl_insert (fun kv => visitFieldEntry ps ext kv.1 kv.2) l [] hl
    (fun a ha => absurd ha (List.not_mem_nil a))
  simpa using h

theorem parseFields_eq_map (l : List (String × JsonV))
    (hl : l.Pairwise (fun a b => strLt a.1 b.1 = true)) :
    l.foldl (fun acc kv =>
        Smap.insert kv.1
          (⟨jstr (jget (jget kv.2 "tags") "assoc"),
            to_int (jstr (jget (jget kv.2 "tags") "comps"))⟩ : VisItFieldInfo) acc) []
      = l.map (fun kv => (kv.1,
          (⟨jstr (jget (jget kv.2 "tags") "assoc"),
            to_int (jstr (jget (jget kv.2 "tags") "comps"))⟩ : VisItFieldInfo))) := by
  have h := Smap_foldl_insert
    (fun kv => (⟨jstr (jget (jget kv.2 "tags") "assoc"),
      to_int (jstr (jget (jget kv.2 "tags") "comps"))⟩ : VisItFieldInfo)) l []
    hl (fun a ha => absurd ha (List.not_mem_nil a))
  simpa using h

/-- C1: round trip of the manifest — parsing the tree produced by the
    root-string builder (into any target collection `t`) restores exactly
    the `field_info_map` (hence the field-name set and every per-field
    component count and association tag), the `cycle`, `time`, rank count
    and dimensional tags that were serialized, and leaves the error state
    untouched.  The only assumption is the `std::map` invariant that the
    serialized `field_info_map` is sorted by key. -/
theorem claim1_manifest_roundtrip (s t : VisItState)
    (hs : s.field_info_map.Pairwise (fun a b => strLt a.1 b.1 = true)) :
    (VisItDataCollection.ParseVisItRootJson t (VisItDataCollection.GetVisItRootJson s)).cycle
        = s.cycle ∧
    (VisItDataCollection.ParseVisItRootJson t (VisItDataCollection.GetVisItRootJson s)).time
        = s.time ∧
    (VisItDataCollection.ParseVisItRootJson t (VisItDataCollection.GetVisItRootJson s)).num_procs
        = s.num_procs ∧
    (VisItDataCollection.ParseVisItRootJson t (VisItDataCollection.GetVisItRootJson s)).spatial_dim
        = s.spatial_dim ∧
    (VisItDataCollection.ParseVisItRootJson t (VisItDataCollection.GetVisItRootJson s)).topo_dim
        = s.topo_dim ∧
    (VisItDataCollection.ParseVisItRootJson t
        (VisItDataCollection.GetVisItRootJson s)).field_info_map
        = s.field_info_map ∧
    (VisItDataCollection.ParseVisItRootJson t (VisItDataCollection.GetVisItRootJson s)).error
        = t.error := by
  have hpathfull : jstr (jget (jget (jget (jget (VisItDataCollection.GetVisItRootJson s)
      "dsets") "main") "mesh") "path") = visitPathStr s ++ "mesh" ++ visitExt s := by
    rw [mainget_eq]
    show jstr (jget ((Smap.find? "mesh" (visitMainList s)).getD JsonV.null) "path") = _
    rw [(mainLookup s).2.2.2.1]
    exact (meshEntryLookup s).1
  obtain ⟨idx, hidx⟩ := findIdx_some_of_mem (underscore_mem_path s)
  unfold VisItDataCollection.ParseVisItRootJson
  rw [hpathfull, hidx]
  dsimp only
  refine ⟨?_, ?_, ?_, ?_, ?_, ?_, rfl⟩
  · show ratToInt (jnum (jget (jget (jget (VisItDataCollection.GetVisItRootJson s)
        "dsets") "main") "cycle")) = s.cycle
    rw [mainget_eq]
    show ratToInt (jnum ((Smap.find? "cycle" (visitMainList s)).getD JsonV.null)) = s.cycle
    rw [(mainLookup s).1]
    exact ratToInt_intCast s.cycle
  · show jnum (jget (jget (jget (VisItDataCollection.GetVisItRootJson s)
        "dsets") "main") "time") = s.time
    rw [mainget_eq]
    show jnum ((Smap.find? "time" (visitMainList s)).getD JsonV.null) = s.time
    rw [(mainLookup s).2.1]
    rfl
  · show ratToInt (jnum (jget (jget (jget (VisItDataCollection.GetVisItRootJson s)
        "dsets") "main") "domains")) = s.num_procs
    rw [mainget_eq]
    show ratToInt (jnum ((Smap.find? "domains" (visitMainList s)).getD JsonV.null))
        = s.num_procs
    rw [(mainLookup s).2.2.1]
    exact ratToInt_intCast s.num_procs
  · show to_int (jstr (jget (jget (jget (jget (jget
        (VisItDataCollection.GetVisItRootJson s) "dsets") "main") "mesh") "tags")
        "spatial_dim")) = s.spatial_dim
    rw [mainget_eq]
    show to_int (jstr (jget (jget ((Smap.find? "mesh" (visitMainList s)).getD JsonV.null)
        "tags") "spatial_dim")) = s.spatial_dim
    rw [(mainLookup s).2.2.2.1]
    show to_int (jstr (jget (jget (JsonV.obj (visitMeshEntry s)) "tags") "spatial_dim"))
        = s.spatial_dim
    rw [(meshEntryLookup s).2.1]
    exact to_int_to_string s.spatial_dim
  · show to_int (jstr (jget (jget (jget (jget (jget
        (VisItDataCollection.GetVisItRootJson s) "dsets") "main") "mesh") "tags")
        "topo_dim")) = s.topo_dim
    rw [mainget_eq]
    show to_int (jstr (jget (jget ((Smap.find? "mesh" (visitMainList s)).getD JsonV.null)
        "tags") "topo_dim")) = s.topo_dim
    rw [(mainLookup s).2.2.2.1]
    show to_int (jstr (jget (jget (JsonV.obj (visitMeshEntry s)) "tags") "topo_dim"))
        = s.topo_dim
    rw [(meshEntryLookup s).2.2]
    exact to_int_to_string s.topo_dim
  · show (if isObj (jget (jget (jget (VisItDataCollection.GetVisItRootJson s)
        "dsets") "main") "fields") then
          (jobjOf (jget (jget (jget (VisItDataCollection.GetVisItRootJson s)
            "dsets") "main") "fields")).foldl
            (fun acc kv =>
              Smap.insert kv.1
                (⟨jstr (jget (jget kv.2 "tags") "assoc"),
                  to_int (jstr (jget (jget kv.2 "tags") "comps"))⟩ : VisItFieldInfo) acc) []
        else []) = s.field_info_map
    rw [mainget_eq]
    show (if isObj ((Smap.find? "fields" (visitMainList s)).getD JsonV.null) then
          (jobjOf ((Smap.find? "fields" (visitMainList s)).getD JsonV.null)).foldl
            (fun acc kv =>
              Smap.insert kv.1
                (⟨jstr (jget (jget kv.2 "tags") "assoc"),
                  to_int (jstr (jget (jget kv.2 "tags") "comps"))⟩ : VisItFieldInfo) acc) []
        else []) = s.field_info_map
    rw [(mainLookup s).2.2.2.2]
    cases hfim : s.field_info_map with
    | nil => rfl
    | cons hd tl =>
      rw [hfim] at hs
      show (visitFieldsObj (visitPathStr s) (visitExt s) (hd :: tl)).foldl
          (fun acc kv =>
            Smap.insert kv.1
              (⟨jstr (jget (jget kv.2 "tags") "assoc"),
                to_int (jstr (jget (jget kv.2 "tags") "comps"))⟩ : VisItFieldInfo) acc) []
          = hd :: tl
      rw [visitFieldsObj_eq_map _ _ _ hs]
      rw [parseFields_eq_map _ (by rw [List.pairwise_map]; simpa using hs)]
      rw [List.map_map]
      have hpt : ∀ kv ∈ hd :: tl,
          ((fun kv => (kv.1,
              (⟨jstr (jget (jget kv.2 "tags") "assoc"),
                to_int (jstr (jget (jget kv.2 "tags") "comps"))⟩ : VisItFieldInfo))) ∘
            (fun kv => (kv.1, visitFieldEntry (visitPathStr s) (visitExt s) kv.1 kv.2))) kv
            = id kv := by
        intro kv _
        show (kv.1, (⟨kv.2.association,
          to_int (to_string kv.2.num_components)⟩ : VisItFieldInfo)) = kv
        rw [to_int_to_string]
      rw [List.map_congr_left hpt, List.map_id]

/-- C1 witnessed at the concrete two-rank scenario state (one field
    `pressure`, `nodes`, one component), parsed into a fresh collection. -/
theorem claim1_manifest_roundtrip_witness :
    ((scenarioState 0).field_info_map.Pairwise (fun a b => strLt a.1 b.1 = true)) ∧
    ((VisItDataCollection.ParseVisItRootJson (VisItDataCollection.mk0 "x")
        (VisItDataCollection.GetVisItRootJson (scenarioState 0))).cycle
        = (scenarioState 0).cycle ∧
      (VisItDataCollection.ParseVisItRootJson (VisItDataCollection.mk0 "x")
        (VisItDataCollection.GetVisItRootJson (scenarioState 0))).time
        = (scenarioState 0).time ∧
      (VisItDataCollection.ParseVisItRootJson (VisItDataCollection.mk0 "x")
        (VisItDataCollection.GetVisItRootJson (scenarioState 0))).num_procs
        = (scenarioState 0).num_procs ∧
      (VisItDataCollection.ParseVisItRootJson (VisItDataCollection.mk0 "x")
        (VisItDataCollection.GetVisItRootJson (scenarioState 0))).spatial_dim
        = (scenarioState 0).spatial_dim ∧
      (VisItDataCollection.ParseVisItRootJson (VisItDataCollection.mk0 "x")
        (VisItDataCollection.GetVisItRootJson (scenarioState 0))).topo_dim
        = (scenarioState 0).topo_dim ∧
      (VisItDataCollection.ParseVisItRootJson (VisItDataCollection.mk0 "x")
        (VisItDataCollection.GetVisItRootJson (scenarioState 0))).field_info_map
        = (scenarioState 0).field_info_map ∧
      (VisItDataCollection.ParseVisItRootJson (VisItDataCollection.mk0 "x")
        (VisItDataCollection.GetVisItRootJson (scenarioState 0))).error
        = (VisItDataCollection.mk0 "x").error) :=
  ⟨by simp [scenarioState],
    claim1_manifest_roundtrip (scenarioState 0) (VisItDataCollection.mk0 "x")
      (by simp [scenarioState])⟩

end Mfem
